import Mathlib

/-!
Shallow embedding of the tenant-isolated data-access and ingestion pipeline of
the KFCRM FAIREX backend (multi-tenant CRM, Node/Express over Postgres).

Conventions of the embedding:
* ids and timestamps are `Nat`; `gen_random_uuid()` is modelled by a fresh-id
  counter `DB.nextId`;
* nullable SQL columns and absent/falsy JS values are `Option`;
  `none` stands for SQL NULL and for JS `undefined`/`null`/`""` (all falsy);
* SQL `col = $n` comparisons follow SQL three-valued logic: a comparison with
  NULL never matches;
* each model function takes the database value and returns the new database
  value and/or its result rows, mirroring the SQL statement it embeds;
* writes issued through the shared pool (`db.query`) are applied to the
  database immediately (each such statement autocommits); writes issued on the
  webhook controller's dedicated client (`client.query`) inside its
  BEGIN ... COMMIT block are applied only at COMMIT and are the only writes
  discarded by ROLLBACK.  This distinction is exactly what the source does:
  in `webhookController.handleLeadCaptured` the model calls
  (`ContactModel.*`, `LeadModel.create`) run on the pool while only the
  activity-log INSERT runs on the transaction client.
-/

/-- A JSON scalar reaching a SQL parameter slot: string, number or null. -/
inductive SqlVal where
  | s : String → SqlVal
  | n : Nat → SqlVal
  | null : SqlVal
deriving DecidableEq, Repr

/-- Row of the `contacts` table. -/
structure ContactRow where
  id : Nat
  tenant_id : Nat
  first_name : Option String := none
  last_name : Option String := none
  email : Option String := none
  phone : Option String := none
  dob : Option String := none
  company_id : Option Nat := none
  kf_visitor_id : Option String := none
  source : String := "manual"
  created_at : Nat := 0
  updated_at : Nat := 0
deriving DecidableEq, Repr

/-- Row of the `leads` table. -/
structure LeadRow where
  id : Nat
  tenant_id : Nat
  contact_id : Option Nat := none
  owner_user_id : Option Nat := none
  title : Option String := none
  status : String := "new"
  stage : String := "lead"
  score : Nat := 0
  source : String := "manual"
  exhibition_id : Option Nat := none
  join_id : Option Nat := none
  utm_source : Option String := none
  utm_medium : Option String := none
  utm_campaign : Option String := none
  notes : Option String := none
  created_at : Nat := 0
  updated_at : Nat := 0
deriving DecidableEq, Repr

/-- Row of the `team_users` table. -/
structure UserRow where
  id : Nat
  tenant_id : Nat
  email : String
  name : String
  role : String := "agent"
  is_active : Bool := true
  password_hash : String := ""
  created_at : Nat := 0
deriving DecidableEq, Repr

/-- Row of the `tags` table (name unique per tenant). -/
structure TagRow where
  id : Nat
  tenant_id : Nat
  name : String
deriving DecidableEq, Repr

/-- Row of the `companies` table. -/
structure CompanyRow where
  id : Nat
  tenant_id : Nat
  name : String
  website : Option String := none
  phone : Option String := none
  address : Option String := none
  created_at : Nat := 0
  updated_at : Nat := 0
deriving DecidableEq, Repr

/-- Row of the `tasks` table. -/
structure TaskRow where
  id : Nat
  tenant_id : Nat
  lead_id : Option Nat := none
  contact_id : Option Nat := none
  assigned_to : Option Nat := none
  title : String := ""
  due_at : Option Nat := none
  priority : String := "normal"
  status : String := "open"
  created_at : Nat := 0
  updated_at : Nat := 0
deriving DecidableEq, Repr

/-- Row of the `interactions` table (`occurred_at` is modelled at day
granularity, so the source's `DATE(occurred_at)` is the identity). -/
structure InteractionRow where
  id : Nat
  tenant_id : Nat
  lead_id : Option Nat := none
  contact_id : Option Nat := none
  channel : String := "note"
  direction : String := "out"
  subject : Option String := none
  body : Option String := none
  occurred_at : Nat := 0
  created_by : Option Nat := none
deriving DecidableEq, Repr

/-- Row of the append-only `activity_log` table. -/
structure ActivityRow where
  tenant_id : Nat
  entity : String
  entity_id : Nat
  action : String
  after_data : String := ""
  occurred_at : String := ""
deriving DecidableEq, Repr

/-- The relational store: one list per core table, plus a fresh-id counter
standing in for `gen_random_uuid()`. -/
structure DB where
  nextId : Nat := 0
  tenants : List Nat := []
  contacts : List ContactRow := []
  leads : List LeadRow := []
  tags : List TagRow := []
  lead_tags : List (Nat × Nat) := []
  users : List UserRow := []
  companies : List CompanyRow := []
  tasks : List TaskRow := []
  interactions : List InteractionRow := []
  activity_log : List ActivityRow := []
deriving DecidableEq, Repr

/-- SQL `col = $n` where the column is nullable and the parameter may be NULL:
true only when both sides are non-null and equal. -/
def sqlEqOpt (col arg : Option String) : Bool :=
  match col, arg with
  | some c, some a => c == a
  | _, _ => false

/-- JS `Math.ceil(total / limit)` on naturals (`limit > 0` in all callers). -/
def natCeilDiv (total limit : Nat) : Nat :=
  (total + limit - 1) / limit

/-- ASCII substring test used to model SQL `ILIKE '%q%'` (case-insensitive). -/
def listIsPrefixOf : List Char → List Char → Bool
  | [], _ => true
  | _ :: _, [] => false
  | a :: as, b :: bs => a == b && listIsPrefixOf as bs

/-- Helper for `strContains`: does `pat` occur in `hay` as a contiguous run. -/
def listIsInfixOf (pat : List Char) : List Char → Bool
  | [] => pat.isEmpty
  | c :: rest => listIsPrefixOf pat (c :: rest) || listIsInfixOf pat rest

/-- JS `toUpperCase()` restricted to ASCII, written so that it evaluates by
kernel reduction (all strings it is applied to are ASCII). -/
def strToUpper (s : String) : String := String.mk (s.toList.map Char.toUpper)

/-- SQL `col ILIKE '%q%'` on a nullable column (NULL never matches). -/
def ilikeOpt (col : Option String) (q : String) : Bool :=
  match col with
  | some c => listIsInfixOf q.toLower.toList c.toLower.toList
  | none => false

namespace ContactModel

/-- `ContactModel.findByEmailOrPhone` (Contact model, lines 221-231): first
contact of the tenant whose email or phone equals the supplied value, under
SQL NULL semantics (`LIMIT 1` picks the first matching row). -/
def findByEmailOrPhone (db : DB) (tenantId : Nat) (email phone : Option String) :
    Option ContactRow :=
  db.contacts.find? fun c =>
    c.tenant_id == tenantId && (sqlEqOpt c.email email || sqlEqOpt c.phone phone)

/-- Field bag accepted by `ContactModel.create` (lines 239-271). -/
structure CreateData where
  first_name : Option String := none
  last_name : Option String := none
  email : Option String := none
  phone : Option String := none
  dob : Option String := none
  company_id : Option Nat := none
  kf_visitor_id : Option String := none
  source : Option String := none
deriving DecidableEq, Repr

/-- `ContactModel.create`: INSERT with `source || 'manual'` defaulting and a
generated id; returns the new database and the inserted row. -/
def create (db : DB) (tenantId : Nat) (d : CreateData) (now : Nat) :
    DB × ContactRow :=
  let c : ContactRow :=
    { id := db.nextId, tenant_id := tenantId,
      first_name := d.first_name, last_name := d.last_name,
      email := d.email, phone := d.phone, dob := d.dob,
      company_id := d.company_id, kf_visitor_id := d.kf_visitor_id,
      source := d.source.getD ("manual"),
      created_at := now, updated_at := now }
  ({ db with contacts := db.contacts ++ [c], nextId := db.nextId + 1 }, c)

/-- `ContactModel.findById` (lines 279-288): id + tenant scoped read. -/
def findById (db : DB) (contactId tenantId : Nat) : Option ContactRow :=
  db.contacts.find? fun c => c.id == contactId && c.tenant_id == tenantId

/-- `ContactModel.update` (lines 367-404).  The source destructures exactly
`first_name, last_name, email, phone, dob, company_id` from the caller's bag —
any other key (in particular `kf_visitor_id`) is dropped — and applies
`COALESCE($n, col)` per column plus `updated_at = CURRENT_TIMESTAMP`,
scoped by `WHERE id = $7 AND tenant_id = $8`; `RETURNING *` yields the row. -/
def update (db : DB) (contactId tenantId : Nat)
    (first_name last_name email phone dob : Option String)
    (company_id : Option Nat) (now : Nat) : DB × Option ContactRow :=
  let g := fun (c : ContactRow) =>
    if c.id == contactId && c.tenant_id == tenantId then
      { c with
        first_name := first_name <|> c.first_name,
        last_name := last_name <|> c.last_name,
        email := email <|> c.email,
        phone := phone <|> c.phone,
        dob := dob <|> c.dob,
        company_id := company_id <|> c.company_id,
        updated_at := now }
    else c
  let cs := db.contacts.map g
  ({ db with contacts := cs },
   cs.find? fun c => c.id == contactId && c.tenant_id == tenantId)

/-- `ContactModel.delete` (lines 412-416): hard delete scoped by id + tenant;
returns whether a row was removed (`rowCount > 0`). -/
def del (db : DB) (contactId tenantId : Nat) : DB × Bool :=
  let keep := fun (c : ContactRow) => !(c.id == contactId && c.tenant_id == tenantId)
  ({ db with contacts := db.contacts.filter keep },
   db.contacts.any fun c => c.id == contactId && c.tenant_id == tenantId)

end ContactModel

namespace UserModel

/-- `UserModel.update` (User model, lines 150-183): `COALESCE($n, col)` merge
over email, name, role, is_active and password_hash, scoped by
`WHERE id = $6 AND tenant_id = $7`, `RETURNING *`.  Note the statement
refreshes no timestamp. -/
def update (db : DB) (userId tenantId : Nat)
    (email name role : Option String) (is_active : Option Bool)
    (password_hash : Option String) : DB × Option UserRow :=
  let g := fun (u : UserRow) =>
    if u.id == userId && u.tenant_id == tenantId then
      { u with
        email := email.getD u.email,
        name := name.getD u.name,
        role := role.getD u.role,
        is_active := is_active.getD u.is_active,
        password_hash := password_hash.getD u.password_hash }
    else u
  let us := db.users.map g
  ({ db with users := us },
   us.find? fun u => u.id == userId && u.tenant_id == tenantId)

end UserModel

namespace TagModel

/-- `TagModel.createOrGet` (Tag.js lines 14-24): upsert keyed on
`(tenant_id, name)` with the name trimmed.  On conflict the source runs
`DO UPDATE SET name = EXCLUDED.name` — the conflicting row already carries
exactly the trimmed name, so the row is unchanged — and `RETURNING id, name`
yields the existing row; otherwise a fresh row is inserted. -/
def createOrGet (db : DB) (tenantId : Nat) (tagName : String) : DB × TagRow :=
  match db.tags.find? (fun t => t.tenant_id == tenantId && t.name == tagName.trim) with
  | some t => (db, t)
  | none =>
    let t : TagRow := { id := db.nextId, tenant_id := tenantId, name := tagName.trim }
    ({ db with tags := db.tags ++ [t], nextId := db.nextId + 1 }, t)

/-- `TagModel.linkToLead` (Tag.js lines 73-81): join-insert with
`ON CONFLICT (lead_id, tag_id) DO NOTHING` — a no-op when the pair exists. -/
def linkToLead (db : DB) (leadId tagId : Nat) : DB :=
  if (leadId, tagId) ∈ db.lead_tags then db
  else { db with lead_tags := db.lead_tags ++ [(leadId, tagId)] }

/-- `TagModel.removeFromLead` (Tag.js lines 90-101): deletes the join rows of
`leadId` whose tag is the tenant's tag of that name (the scalar subquery is
NULL when the tenant has no such tag, deleting nothing). -/
def removeFromLead (db : DB) (leadId : Nat) (tagName : String) (tenantId : Nat) :
    DB × Bool :=
  match db.tags.find? (fun t => t.name == tagName && t.tenant_id == tenantId) with
  | none => (db, false)
  | some t =>
    let keep := fun (p : Nat × Nat) => !(p.1 == leadId && p.2 == t.id)
    ({ db with lead_tags := db.lead_tags.filter keep },
     db.lead_tags.any fun p => p.1 == leadId && p.2 == t.id)

/-- `TagModel.delete` (Tag.js lines 166-170): id + tenant scoped delete. -/
def del (db : DB) (tagId tenantId : Nat) : DB × Bool :=
  let keep := fun (t : TagRow) => !(t.id == tagId && t.tenant_id == tenantId)
  ({ db with tags := db.tags.filter keep },
   db.tags.any fun t => t.id == tagId && t.tenant_id == tenantId)

end TagModel

/-- Shared windowed-pagination shape of the three list queries
(`COUNT(*) OVER() as total_count` + `LIMIT/OFFSET`, then
`totalCount = rows.length > 0 ? parseInt(rows[0].total_count) : 0`).
The window count on every surviving row equals the number of post-WHERE rows,
so the value read off the first returned row is the matched-row count; when the
requested slice is empty the JS fallback reports 0.  The ORDER BY permutes the
post-WHERE rows before slicing; the embedding keeps them in table order, which
is immaterial to every property proved here (all are permutation-invariant:
they concern only the matched count and the slice's emptiness/length). -/
def windowedPage {α : Type} (matched : List α) (page limit : Nat) :
    List α × Nat :=
  let offset := (page - 1) * limit
  let rows := (matched.drop offset).take limit
  (rows, if rows.isEmpty then 0 else matched.length)

namespace LeadModel

/-- Filter bag of `LeadModel.getLeadsWithFilters` (Lead model, lines 228-239),
with the source's destructuring defaults applied at use sites. -/
structure Filters where
  status : Option String := none
  stage : Option String := none
  owner : Option Nat := none
  exhibition_id : Option Nat := none
  q : Option String := none
  page : Option Nat := none
  limit : Option Nat := none
  sort : Option String := none
  order : Option String := none
deriving DecidableEq, Repr

/-- WHERE clause of `getLeadsWithFilters` (lines 243-275): tenant filter plus
one exact-match clause per present filter, plus the ILIKE search over the
lead title and the LEFT-JOINed contact's name/email columns. -/
def leadMatches (db : DB) (tenantId : Nat) (f : Filters) (l : LeadRow) : Bool :=
  let c := l.contact_id.bind fun cid => db.contacts.find? fun c => c.id == cid
  l.tenant_id == tenantId
  && (match f.status with | some s => l.status == s | none => true)
  && (match f.stage with | some s => l.stage == s | none => true)
  && (match f.owner with | some o => l.owner_user_id == some o | none => true)
  && (match f.exhibition_id with | some e => l.exhibition_id == some e | none => true)
  && (match f.q with
      | some q => ilikeOpt l.title q
          || ilikeOpt (c.bind (·.first_name)) q
          || ilikeOpt (c.bind (·.last_name)) q
          || ilikeOpt (c.bind (·.email)) q
      | none => true)

/-- `LeadModel.getLeadsWithFilters` (lines 228-309): filtered rows of the page
slice plus the window-count-derived total. -/
def getLeadsWithFilters (db : DB) (tenantId : Nat) (f : Filters) :
    List LeadRow × Nat :=
  windowedPage (db.leads.filter (leadMatches db tenantId f))
    (f.page.getD 1) (f.limit.getD 20)

/-- ORDER BY clause text of `getLeadsWithFilters` (lines 276, 293): the
destructuring default `'created_at'` applies only when no sort is supplied;
a supplied sort string is spliced into the query text verbatim
(`ORDER BY l.${sort} ${sortOrder}`). -/
def sortClause (sort order : Option String) : String :=
  "ORDER BY l." ++ sort.getD ("created_at") ++ " " ++ strToUpper (order.getD ("desc"))

/-- Field bag accepted by `LeadModel.create` (lines 317-332). -/
structure CreateData where
  contact_id : Option Nat := none
  owner_user_id : Option Nat := none
  title : Option String := none
  status : Option String := none
  stage : Option String := none
  score : Option Nat := none
  source : Option String := none
  exhibition_id : Option Nat := none
  join_id : Option Nat := none
  utm_source : Option String := none
  utm_medium : Option String := none
  utm_campaign : Option String := none
  notes : Option String := none
deriving DecidableEq, Repr

/-- `LeadModel.create` (lines 317-364): INSERT with destructuring defaults
`status='new'`, `stage='lead'`, `score=0`, `source='manual'`. -/
def create (db : DB) (tenantId : Nat) (d : CreateData) (now : Nat) :
    DB × LeadRow :=
  let l : LeadRow :=
    { id := db.nextId, tenant_id := tenantId,
      contact_id := d.contact_id, owner_user_id := d.owner_user_id,
      title := d.title,
      status := d.status.getD ("new"), stage := d.stage.getD ("lead"),
      score := d.score.getD 0, source := d.source.getD ("manual"),
      exhibition_id := d.exhibition_id, join_id := d.join_id,
      utm_source := d.utm_source, utm_medium := d.utm_medium,
      utm_campaign := d.utm_campaign, notes := d.notes,
      created_at := now, updated_at := now }
  ({ db with leads := db.leads ++ [l], nextId := db.nextId + 1 }, l)

/-- `LeadModel.findByIdWithDetails` (lines 372-403): id + tenant scoped read
(the joined display columns and tag aggregation are read-only decoration of
the same row and are not modelled). -/
def findByIdWithDetails (db : DB) (leadId tenantId : Nat) : Option LeadRow :=
  db.leads.find? fun l => l.id == leadId && l.tenant_id == tenantId

/-- `LeadModel.exists` (lines 434-438). -/
def leadExists (db : DB) (leadId tenantId : Nat) : Bool :=
  db.leads.any fun l => l.id == leadId && l.tenant_id == tenantId

/-- `LeadModel.getCompleteLeadData` (lines 445-462): reads the lead by raw id
with NO tenant filter (`WHERE l.id = $1` only) — the single read path of the
core that is not tenant-scoped. -/
def getCompleteLeadData (db : DB) (leadId : Nat) : Option LeadRow :=
  db.leads.find? fun l => l.id == leadId

/-- `LeadModel.delete` (lines 470-474): id + tenant scoped hard delete. -/
def del (db : DB) (leadId tenantId : Nat) : DB × Bool :=
  let keep := fun (l : LeadRow) => !(l.id == leadId && l.tenant_id == tenantId)
  ({ db with leads := db.leads.filter keep },
   db.leads.any fun l => l.id == leadId && l.tenant_id == tenantId)

/-- One `field = $n` assignment of `LeadModel.update`'s dynamically built SET
clause (line 414: `${field} = $${index+3}` for every key of the bag).  The
store resolves the spliced key against the `leads` table's columns and checks
the value's type; an unknown column or mistyped value makes the whole
statement fail, modelled as `none`. -/
inductive LeadField where
  | contact_id | owner_user_id | title | status | stage | score | source
  | exhibition_id | join_id | utm_source | utm_medium | utm_campaign | notes
  | tenant_id | id | created_at
deriving DecidableEq, Repr

/-- The column name of each `leads` column the SET clause can target. -/
def leadFieldName : LeadField → String
  | .contact_id => "contact_id"
  | .owner_user_id => "owner_user_id"
  | .title => "title"
  | .status => "status"
  | .stage => "stage"
  | .score => "score"
  | .source => "source"
  | .exhibition_id => "exhibition_id"
  | .join_id => "join_id"
  | .utm_source => "utm_source"
  | .utm_medium => "utm_medium"
  | .utm_campaign => "utm_campaign"
  | .notes => "notes"
  | .tenant_id => "tenant_id"
  | .id => "id"
  | .created_at => "created_at"

/-- The store resolving a spliced key of the dynamically built SET clause
(line 414: `${field} = $${index+3}`) against the columns of the `leads`
table; an unresolvable key fails the statement.  A bag key `updated_at` is
deliberately not resolvable here: the built clause already ends with
`updated_at = CURRENT_TIMESTAMP` (line 419), so a bag carrying that key is a
double assignment to the same column, which the store rejects. -/
def parseLeadField (f : String) : Option LeadField :=
  if f == "contact_id" then some .contact_id
  else if f == "owner_user_id" then some .owner_user_id
  else if f == "title" then some .title
  else if f == "status" then some .status
  else if f == "stage" then some .stage
  else if f == "score" then some .score
  else if f == "source" then some .source
  else if f == "exhibition_id" then some .exhibition_id
  else if f == "join_id" then some .join_id
  else if f == "utm_source" then some .utm_source
  else if f == "utm_medium" then some .utm_medium
  else if f == "utm_campaign" then some .utm_campaign
  else if f == "notes" then some .notes
  else if f == "tenant_id" then some .tenant_id
  else if f == "id" then some .id
  else if f == "created_at" then some .created_at
  else none

/-- One resolved `column = value` assignment applied to a row; a value of the
wrong shape for the column fails the statement. -/
def applyLeadField (l : LeadRow) : LeadField → SqlVal → Option LeadRow
  | .contact_id, SqlVal.n x => some { l with contact_id := some x }
  | .contact_id, SqlVal.null => some { l with contact_id := none }
  | .owner_user_id, SqlVal.n x => some { l with owner_user_id := some x }
  | .owner_user_id, SqlVal.null => some { l with owner_user_id := none }
  | .title, SqlVal.s x => some { l with title := some x }
  | .title, SqlVal.null => some { l with title := none }
  | .status, SqlVal.s x => some { l with status := x }
  | .stage, SqlVal.s x => some { l with stage := x }
  | .score, SqlVal.n x => some { l with score := x }
  | .source, SqlVal.s x => some { l with source := x }
  | .exhibition_id, SqlVal.n x => some { l with exhibition_id := some x }
  | .exhibition_id, SqlVal.null => some { l with exhibition_id := none }
  | .join_id, SqlVal.n x => some { l with join_id := some x }
  | .join_id, SqlVal.null => some { l with join_id := none }
  | .utm_source, SqlVal.s x => some { l with utm_source := some x }
  | .utm_source, SqlVal.null => some { l with utm_source := none }
  | .utm_medium, SqlVal.s x => some { l with utm_medium := some x }
  | .utm_medium, SqlVal.null => some { l with utm_medium := none }
  | .utm_campaign, SqlVal.s x => some { l with utm_campaign := some x }
  | .utm_campaign, SqlVal.null => some { l with utm_campaign := none }
  | .notes, SqlVal.s x => some { l with notes := some x }
  | .notes, SqlVal.null => some { l with notes := none }
  | .tenant_id, SqlVal.n x => some { l with tenant_id := x }
  | .id, SqlVal.n x => some { l with id := x }
  | .created_at, SqlVal.n x => some { l with created_at := x }
  | _, _ => none

/-- One `field = $n` assignment of `LeadModel.update`'s dynamically built SET
clause: the spliced key is resolved against the `leads` columns and the value
applied; unknown column or mistyped value makes the statement fail. -/
def setLeadField (l : LeadRow) (u : String × SqlVal) : Option LeadRow :=
  match parseLeadField u.1 with
  | some fd => applyLeadField l fd u.2
  | none => none

/-- Sequential application of the SET assignments to one row. -/
def applyLeadUpdates (l : LeadRow) : List (String × SqlVal) → Option LeadRow
  | [] => some l
  | u :: rest =>
    match setLeadField l u with
    | some l' => applyLeadUpdates l' rest
    | none => none

/-- Applies the SET clause to every row matched by
`WHERE id = $1 AND tenant_id = $2` (also stamping `updated_at`), leaving all
other rows untouched; `none` propagates a statement failure. -/
def updateLeadList (leadId tenantId : Nat) (updates : List (String × SqlVal))
    (now : Nat) : List LeadRow → Option (List LeadRow)
  | [] => some []
  | l :: ls =>
    let hd := if l.id == leadId && l.tenant_id == tenantId then
        (applyLeadUpdates l updates).map fun l' => { l' with updated_at := now }
      else some l
    match hd, updateLeadList leadId tenantId updates now ls with
    | some l', some ls' => some (l' :: ls')
    | _, _ => none

/-- Error message standing for the store rejecting the malformed text
`UPDATE leads SET , updated_at = CURRENT_TIMESTAMP ...` that lines 413-419
produce when the update bag is empty (empty `setClause` leaves a bare comma). -/
def emptySetClauseError : String := "syntax error at or near \x22,\x22"

/-- `LeadModel.update` (lines 412-426): dynamically built SET clause over the
keys of the bag, `updated_at` refresh, id + tenant scoped WHERE, RETURNING the
updated row.  An empty bag yields malformed SQL and the call errors. -/
def update (db : DB) (leadId tenantId : Nat) (updates : List (String × SqlVal))
    (now : Nat) : Except String (DB × Option LeadRow) :=
  if updates.isEmpty then .error emptySetClauseError
  else
    match updateLeadList leadId tenantId updates now db.leads with
    | none => .error ("column of update does not exist")
    | some leads' =>
      .ok ({ db with leads := leads' },
           leads'.find? fun l => l.id == leadId && l.tenant_id == tenantId)

end LeadModel

namespace CompanyModel

/-- `CompanyModel.update` (Company model, lines 165-196): fixed
`COALESCE($n, col)` merge over name/website/phone/address plus an
`updated_at` refresh, id + tenant scoped, RETURNING the row. -/
def update (db : DB) (companyId tenantId : Nat)
    (name website phone address : Option String) (now : Nat) :
    DB × Option CompanyRow :=
  let g := fun (c : CompanyRow) =>
    if c.id == companyId && c.tenant_id == tenantId then
      { c with
        name := name.getD c.name,
        website := website <|> c.website,
        phone := phone <|> c.phone,
        address := address <|> c.address,
        updated_at := now }
    else c
  let cs := db.companies.map g
  ({ db with companies := cs },
   cs.find? fun c => c.id == companyId && c.tenant_id == tenantId)

end CompanyModel

namespace TaskModel

/-- Filter bag of `TaskModel.getTasksWithFilters` (Task.js lines 14-23). -/
structure Filters where
  status : Option String := none
  assigned_to : Option Nat := none
  due_before : Option Nat := none
  due_after : Option Nat := none
  priority : Option String := none
  page : Option Nat := none
  limit : Option Nat := none
deriving DecidableEq, Repr

/-- WHERE clause of `getTasksWithFilters` (lines 27-53); comparisons against a
NULL `due_at` never match. -/
def taskMatches (tenantId : Nat) (f : Filters) (t : TaskRow) : Bool :=
  t.tenant_id == tenantId
  && (match f.status with | some s => t.status == s | none => true)
  && (match f.assigned_to with | some a => t.assigned_to == some a | none => true)
  && (match f.due_before with
      | some b => (match t.due_at with | some d => d ≤ b | none => false)
      | none => true)
  && (match f.due_after with
      | some a => (match t.due_at with | some d => a ≤ d | none => false)
      | none => true)
  && (match f.priority with | some p => t.priority == p | none => true)

/-- `TaskModel.getTasksWithFilters` (lines 14-93). -/
def getTasksWithFilters (db : DB) (tenantId : Nat) (f : Filters) :
    List TaskRow × Nat :=
  windowedPage (db.tasks.filter (taskMatches tenantId f))
    (f.page.getD 1) (f.limit.getD 20)

/-- `TaskModel.exists` (lines 141-145). -/
def taskExists (db : DB) (taskId tenantId : Nat) : Bool :=
  db.tasks.any fun t => t.id == taskId && t.tenant_id == tenantId

/-- `TaskModel.updateStatus` (lines 154-164): sets `status` and refreshes
`updated_at` on the id + tenant matched row, RETURNING it. -/
def updateStatus (db : DB) (taskId tenantId : Nat) (status : String) (now : Nat) :
    DB × Option TaskRow :=
  let g := fun (t : TaskRow) =>
    if t.id == taskId && t.tenant_id == tenantId then
      { t with status := status, updated_at := now }
    else t
  let ts := db.tasks.map g
  ({ db with tasks := ts },
   ts.find? fun t => t.id == taskId && t.tenant_id == tenantId)

end TaskModel

namespace InteractionModel

/-- Filter bag of `InteractionModel.getInteractionsWithFilters`
(Interaction model, lines 324-334). -/
structure Filters where
  lead_id : Option Nat := none
  contact_id : Option Nat := none
  channel : Option String := none
  direction : Option String := none
  date_from : Option Nat := none
  date_to : Option Nat := none
  page : Option Nat := none
  limit : Option Nat := none
deriving DecidableEq, Repr

/-- WHERE clause of `getInteractionsWithFilters` (lines 338-366). -/
def interactionMatches (tenantId : Nat) (f : Filters) (i : InteractionRow) : Bool :=
  i.tenant_id == tenantId
  && (match f.lead_id with | some v => i.lead_id == some v | none => true)
  && (match f.contact_id with | some v => i.contact_id == some v | none => true)
  && (match f.channel with | some v => i.channel == v | none => true)
  && (match f.direction with | some v => i.direction == v | none => true)
  && (match f.date_from with | some v => v ≤ i.occurred_at | none => true)
  && (match f.date_to with | some v => i.occurred_at ≤ v | none => true)

/-- `InteractionModel.getInteractionsWithFilters` (lines 324-400). -/
def getInteractionsWithFilters (db : DB) (tenantId : Nat) (f : Filters) :
    List InteractionRow × Nat :=
  windowedPage (db.interactions.filter (interactionMatches tenantId f))
    (f.page.getD 1) (f.limit.getD 20)

end InteractionModel

/-- Character class of the sanitiser `replace(/[^a-zA-Z0-9_.]/g, '')` used by
`ContactModel.findAll` (Contact model, line 345) on a client-supplied
`sort_by`. -/
def sortChar (c : Char) : Bool :=
  (('a') ≤ c && c ≤ ('z'))
  || (('A') ≤ c && c ≤ ('Z'))
  || (('0') ≤ c && c ≤ ('9'))
  || c == ('_') || c == ('.')

/-- The sanitised sort field of `ContactModel.findAll` (lines 344-350): strips
the disallowed characters and splices whatever survives into the query text;
only an absent `sort_by` gives the default `c.created_at DESC` ordering. -/
def contactSortField (sort_by : String) : String :=
  String.mk (sort_by.toList.filter sortChar)

/-- ORDER BY clause text of `ContactModel.findAll` (lines 343-350). -/
def contactSortClause (sort_by sort_order : Option String) : String :=
  match sort_by with
  | some s =>
    "ORDER BY " ++ contactSortField s ++ " " ++
      (if (sort_order.map strToUpper) == some ("DESC") then "DESC" else "ASC")
  | none => "ORDER BY c.created_at DESC"

/-- Pagination envelope reported by the list endpoints. -/
structure Pagination where
  page : Nat
  limit : Nat
  total : Nat
  pages : Nat
deriving DecidableEq, Repr

namespace leadsController

/-- `leadsController.getLeads` (leadsController.js lines 14-36): runs the
filtered list query and wraps it with `{ page, limit, total, pages }` where
`pages = Math.ceil(totalCount / limit)`. -/
def getLeads (db : DB) (tenantId : Nat) (f : LeadModel.Filters) :
    List LeadRow × Pagination :=
  let (rows, totalCount) := LeadModel.getLeadsWithFilters db tenantId f
  let page := f.page.getD 1
  let limit := f.limit.getD 20
  (rows, { page := page, limit := limit, total := totalCount,
           pages := natCeilDiv totalCount limit })

/-- Request body of `POST /leads`: an optional inline contact reference plus
the lead's own field bag (`const { contact, ...leadData } = req.body`). -/
structure CreateBody where
  contact : Option ContactModel.CreateData := none
  leadData : LeadModel.CreateData := {}
deriving DecidableEq, Repr

/-- `leadsController.createLead` (lines 43-97), success path: when an inline
contact carries an email or phone the tenant partition is searched by
email-or-phone and the match's id reused, otherwise a contact is created with
`source: leadData.source || 'manual'`; when the inline contact carries
neither key, no search and no creation happen and `contactId` stays null.
The lead is then created with the resolved `contact_id` and the caller as
owner.  (As in the webhook, the model writes go through the pooled
`db.query`, not the controller's transaction client.) -/
def createLead (db : DB) (tenantId userId : Nat) (body : CreateBody) (now : Nat) :
    DB × LeadRow :=
  let resolved : DB × Option Nat :=
    match body.contact with
    | some contact =>
      if contact.email.isSome || contact.phone.isSome then
        match ContactModel.findByEmailOrPhone db tenantId contact.email contact.phone with
        | some existing => (db, some existing.id)
        | none =>
          let r := ContactModel.create db tenantId
            { contact with source := some (body.leadData.source.getD ("manual")) } now
          (r.1, some r.2.id)
      else (db, none)
    | none => (db, none)
  LeadModel.create resolved.1 tenantId
    { body.leadData with contact_id := resolved.2, owner_user_id := some userId } now

end leadsController

namespace webhookController

/-- The `visitor` object of the FairEx webhook payload. -/
structure Visitor where
  first_name : Option String := none
  last_name : Option String := none
  email : Option String := none
  phone : Option String := none
  dob : Option String := none
  kf_visitor_id : Option String := none
deriving DecidableEq, Repr

/-- Body of `POST /webhooks/fairex/lead-captured` (controller lines 296-303);
`context_notes` is the source's `context?.notes`. -/
structure Payload where
  tenant_id : Nat
  visitor : Option Visitor := none
  exhibition_id : Option Nat := none
  join_id : Option Nat := none
  scan_time : Option String := none
  context_notes : Option String := none
deriving DecidableEq, Repr

/-- Terminal states of the webhook pipeline. -/
inductive Outcome where
  | invalidTenant : Outcome
  | failure : Outcome
  | success (lead_id : Nat) (contact_id : Option Nat) : Outcome
deriving DecidableEq, Repr

/-- The backfill bag built on a dedup match (controller lines 331-341):
first/last name only when the incoming value is present AND the stored one is
empty; `kf_visitor_id` whenever the incoming value is present, with no
emptiness check on the stored value. -/
structure UpdateData where
  first_name : Option String := none
  last_name : Option String := none
  kf_visitor_id : Option String := none
deriving DecidableEq, Repr

def mkUpdateData (v : Visitor) (existing : ContactRow) : UpdateData :=
  { first_name :=
      if v.first_name.isSome && existing.first_name.isNone then v.first_name else none,
    last_name :=
      if v.last_name.isSome && existing.last_name.isNone then v.last_name else none,
    kf_visitor_id := v.kf_visitor_id }

/-- `Object.keys(updateData).length > 0` (line 342). -/
def UpdateData.nonEmpty (u : UpdateData) : Bool :=
  u.first_name.isSome || u.last_name.isSome || u.kf_visitor_id.isSome

/-- The contact field bag the webhook passes to `ContactModel.create` on a
dedup miss (controller lines 347-355): visitor fields with source `fairex`. -/
def webhookContactData (v : Visitor) : ContactModel.CreateData :=
  { first_name := v.first_name, last_name := v.last_name, email := v.email,
    phone := v.phone, dob := v.dob, kf_visitor_id := v.kf_visitor_id,
    source := some ("fairex") }

/-- Contact resolution step of the webhook (controller lines 317-358).  On a
match, `ContactModel.update` is invoked with the backfill bag — its
destructuring keeps only `first_name`/`last_name` of that bag and drops
`kf_visitor_id` — and on no match a contact is created with source
`'fairex'`.  With neither email nor phone (or no visitor at all) nothing is
searched or created and the contact id stays null. -/
def resolveContact (db : DB) (tenantId : Nat) (vis : Option Visitor) (now : Nat) :
    DB × Option Nat :=
  match vis with
  | none => (db, none)
  | some v =>
    if v.email.isSome || v.phone.isSome then
      match ContactModel.findByEmailOrPhone db tenantId v.email v.phone with
      | some existing =>
        let ud := mkUpdateData v existing
        if ud.nonEmpty then
          ((ContactModel.update db existing.id tenantId
              ud.first_name ud.last_name none none none none now).1,
           some existing.id)
        else (db, some existing.id)
      | none =>
        let r := ContactModel.create db tenantId (webhookContactData v) now
        (r.1, some r.2.id)
    else (db, none)

/-- Lead synthesis of the webhook (controller lines 361-371): templated
title with `'Visitor'`/`''` fallbacks then trimmed, fixed
status/stage/score/source, carried-through exhibition/join ids, and notes
defaulting to a templated string embedding the scan time (JS renders an
absent `scan_time` as the string `undefined` inside the template). -/
def webhookLeadData (p : Payload) (contactId : Option Nat) : LeadModel.CreateData :=
  let firstPart : String := (p.visitor.bind (·.first_name)).getD ("Visitor")
  let lastPart : String := (p.visitor.bind (·.last_name)).getD ("")
  { contact_id := contactId,
    title := some (("FairEx Lead - " ++ firstPart ++ " " ++ lastPart).trim),
    status := some ("new"), stage := some ("lead"),
    score := some 0, source := some ("fairex"),
    exhibition_id := p.exhibition_id, join_id := p.join_id,
    notes := some (p.context_notes.getD
      ("Lead captured from FairEx exhibition at " ++ p.scan_time.getD ("undefined"))) }

/-- `webhookController.handleLeadCaptured` (controller lines 290-409).

The controller opens `BEGIN` on a dedicated client, but every model call
(`ContactModel.findByEmailOrPhone/update/create`, `LeadModel.create`) issues
its statement through the shared pool (`db.query`), where it autocommits
immediately; only the tenant-validation SELECT, the `SET LOCAL`, and the
activity-log INSERT run on the client.  Hence the activity row joins the
store at COMMIT, while `ROLLBACK` (taken when any step throws — here
triggered by `activityFails`) discards only the client's own
statements: the contact and lead writes persist. -/
def handleLeadCaptured (db : DB) (p : Payload) (now : Nat)
    (activityFails : Bool) : DB × Outcome :=
  if p.tenant_id ∈ db.tenants then
    let r := resolveContact db p.tenant_id p.visitor now
    let cr := LeadModel.create r.1 p.tenant_id (webhookLeadData p r.2) now
    if activityFails then (cr.1, Outcome.failure)
    else
      ({ cr.1 with activity_log := cr.1.activity_log ++
          [{ tenant_id := p.tenant_id, entity := "lead", entity_id := cr.2.id,
             action := "created_via_webhook",
             occurred_at := p.scan_time.getD (toString now) }] },
       Outcome.success cr.2.id r.2)
  else (db, Outcome.invalidTenant)

end webhookController

/-- Projection of the webhook outcome's contact id. -/
def webhookController.Outcome.contactOf : webhookController.Outcome → Option Nat
  | .success _ c => c
  | _ => none

/-- Number of occurrences of one (lead, tag) pair in the join relation. -/
def countPair (xs : List (Nat × Nat)) (p : Nat × Nat) : Nat :=
  (xs.filter fun q => q == p).length

/-- Frame condition of one SET assignment: every one of the thirteen lead
data columns other than the assigned field keeps its stored value. -/
def keptColsOne (f : String) (l l2 : LeadRow) : Prop :=
  ("contact_id" ≠ f → l2.contact_id = l.contact_id) ∧
  ("owner_user_id" ≠ f → l2.owner_user_id = l.owner_user_id) ∧
  ("title" ≠ f → l2.title = l.title) ∧
  ("status" ≠ f → l2.status = l.status) ∧
  ("stage" ≠ f → l2.stage = l.stage) ∧
  ("score" ≠ f → l2.score = l.score) ∧
  ("source" ≠ f → l2.source = l.source) ∧
  ("exhibition_id" ≠ f → l2.exhibition_id = l.exhibition_id) ∧
  ("join_id" ≠ f → l2.join_id = l.join_id) ∧
  ("utm_source" ≠ f → l2.utm_source = l.utm_source) ∧
  ("utm_medium" ≠ f → l2.utm_medium = l.utm_medium) ∧
  ("utm_campaign" ≠ f → l2.utm_campaign = l.utm_campaign) ∧
  ("notes" ≠ f → l2.notes = l.notes)

/-- Frame condition of a whole update bag: every lead data column not named
among the bag's keys keeps its stored value (the coalesce-style merge of the
claim). -/
def keptCols (us : List (String × SqlVal)) (l l2 : LeadRow) : Prop :=
  ("contact_id" ∉ us.map Prod.fst → l2.contact_id = l.contact_id) ∧
  ("owner_user_id" ∉ us.map Prod.fst → l2.owner_user_id = l.owner_user_id) ∧
  ("title" ∉ us.map Prod.fst → l2.title = l.title) ∧
  ("status" ∉ us.map Prod.fst → l2.status = l.status) ∧
  ("stage" ∉ us.map Prod.fst → l2.stage = l.stage) ∧
  ("score" ∉ us.map Prod.fst → l2.score = l.score) ∧
  ("source" ∉ us.map Prod.fst → l2.source = l.source) ∧
  ("exhibition_id" ∉ us.map Prod.fst → l2.exhibition_id = l.exhibition_id) ∧
  ("join_id" ∉ us.map Prod.fst → l2.join_id = l.join_id) ∧
  ("utm_source" ∉ us.map Prod.fst → l2.utm_source = l.utm_source) ∧
  ("utm_medium" ∉ us.map Prod.fst → l2.utm_medium = l.utm_medium) ∧
  ("utm_campaign" ∉ us.map Prod.fst → l2.utm_campaign = l.utm_campaign) ∧
  ("notes" ∉ us.map Prod.fst → l2.notes = l.notes)

/-- Concrete store fixtures used by the counterexamples and witnesses. -/
def leadT2 : LeadRow := { id := 10, tenant_id := 2 }

def dbC1 : DB := { leads := [leadT2] }

def leadW : LeadRow := { id := 5, tenant_id := 1 }

def dbW1 : DB := { leads := [leadW] }

def dbC2 : DB := { nextId := 100, tenants := [1] }

def visC2 : webhookController.Visitor :=
  { first_name := some ("J"), email := some ("j@x.com") }

def pC2 : webhookController.Payload :=
  { tenant_id := 1, visitor := some visC2, exhibition_id := some 1,
    join_id := some 2, scan_time := some ("2024-01-01T00:00:00Z") }

def contactFull : ContactRow :=
  { id := 1, tenant_id := 1, first_name := some ("Ann"), last_name := some ("Lee"),
    email := some ("a@x.com"), phone := some ("123"), dob := some ("1990-01-01"),
    company_id := some 9, kf_visitor_id := some ("OLD"), source := "manual" }

def dbC4 : DB := { nextId := 50, tenants := [1], contacts := [contactFull] }

def visC4 : webhookController.Visitor :=
  { first_name := some ("Bob"), last_name := some ("New"),
    email := some ("a@x.com"), kf_visitor_id := some ("NEW") }

def pC4 : webhookController.Payload := { tenant_id := 1, visitor := some visC4 }

def lead5 : LeadRow := { id := 1, tenant_id := 1, title := some ("T"), notes := some ("N") }

def dbC5 : DB := { leads := [lead5] }

def usW : List (String × SqlVal) := [("status", SqlVal.s ("working"))]

def outW : DB × Option LeadRow :=
  ((LeadModel.update dbC5 1 1 usW 9).toOption).getD ({ }, none)

def companyC5 : CompanyRow :=
  { id := 3, tenant_id := 1, name := "Acme", website := some ("a.com"),
    phone := some ("555"), address := some ("Street 1") }

def dbC5c : DB := { companies := [companyC5] }

def userRow : UserRow :=
  { id := 2, tenant_id := 1, email := "u@x.com", name := "U",
    role := "agent", is_active := true, password_hash := "h" }

def dbC5u : DB := { users := [userRow] }

def dbC6 : DB := { nextId := 40 }

def dbC8 : DB := { leads := [{ id := 5, tenant_id := 1 }] }

def fC8 : LeadModel.Filters := { page := some 2 }

def dbC9 : DB := { tenants := [1] }

def pC9 : webhookController.Payload :=
  { tenant_id := 1, visitor := some { first_name := some ("A") } }

theorem countPair_append (xs ys : List (Nat × Nat)) (p : Nat × Nat) :
    countPair (xs ++ ys) p = countPair xs p + countPair ys p := by
  simp [countPair, List.filter_append]

theorem countPair_singleton_self (p : Nat × Nat) : countPair [p] p = 1 := by
  simp [countPair]

theorem countPair_eq_zero_of_not_mem {xs : List (Nat × Nat)} {p : Nat × Nat}
    (h : p ∉ xs) : countPair xs p = 0 := by
  simp only [countPair, List.length_eq_zero, List.filter_eq_nil_iff]
  intro q hq hbeq
  exact h (by simpa using (beq_iff_eq.mp hbeq ▸ hq))

theorem countPair_pos_of_mem {xs : List (Nat × Nat)} {p : Nat × Nat}
    (h : p ∈ xs) : 1 ≤ countPair xs p := by
  have : p ∈ xs.filter fun q => q == p := List.mem_filter.mpr ⟨h, by simp⟩
  have hne : xs.filter (fun q => q == p) ≠ [] := by
    intro hnil; rw [hnil] at this; exact List.not_mem_nil p this
  show 1 ≤ (xs.filter fun q => q == p).length
  exact List.length_pos.mpr hne

/-- Rows sharing the value of an injective-per-list key are equal when the
list is pairwise distinct on that key. -/
theorem eq_of_mem_pairwise_key {α β : Type} {f : α → β} {l : List α}
    (hp : l.Pairwise fun a b => f a ≠ f b) {c d : α}
    (hc : c ∈ l) (hd : d ∈ l) (hf : f c = f d) : c = d := by
  induction l with
  | nil => cases hc
  | cons x xs ih =>
    rcases List.pairwise_cons.mp hp with ⟨hx, hxs⟩
    rcases List.mem_cons.mp hc with hc' | hc' <;>
      rcases List.mem_cons.mp hd with hd' | hd'
    · rw [hc', hd']
    · exact absurd (hc' ▸ hf) (hx d hd')
    · exact absurd (hd' ▸ hf.symm) (hx c hc')
    · exact ih hxs hc' hd'

theorem windowedPage_rows_of_empty {α : Type} (matched : List α) (page limit : Nat)
    (h : matched.length ≤ (page - 1) * limit) :
    (windowedPage matched page limit).1 = [] ∧ (windowedPage matched page limit).2 = 0 := by
  have hdrop : matched.drop ((page - 1) * limit) = [] := List.drop_eq_nil_of_le h
  simp [windowedPage, hdrop]

theorem windowedPage_total_of_rows_ne_nil {α : Type} (matched : List α)
    (page limit : Nat) (h : (windowedPage matched page limit).1 ≠ []) :
    (windowedPage matched page limit).2 = matched.length := by
  simp only [windowedPage] at h ⊢
  rw [if_neg (by simpa [List.isEmpty_iff] using h)]

theorem windowedPage_total_of_rows_nil {α : Type} (matched : List α)
    (page limit : Nat) (h : (windowedPage matched page limit).1 = []) :
    (windowedPage matched page limit).2 = 0 := by
  simp only [windowedPage] at h ⊢
  rw [if_pos (by simpa [List.isEmpty_iff] using h)]

theorem windowedPage_rows_subset {α : Type} (matched : List α) (page limit : Nat) :
    (windowedPage matched page limit).1 ⊆ matched := by
  intro a ha
  simp only [windowedPage] at ha
  exact List.drop_subset _ _ (List.take_subset _ _ ha)

theorem updateLeadList_keeps_other_tenants (leadId t : Nat)
    (us : List (String × SqlVal)) (now : Nat) :
    ∀ (ls ls' : List LeadRow),
      LeadModel.updateLeadList leadId t us now ls = some ls' →
      ∀ l ∈ ls, l.tenant_id ≠ t → l ∈ ls' := by
  intro ls
  induction ls with
  | nil => intro ls' _ l hl; cases hl
  | cons x xs ih =>
    intro ls' h l hl hne
    simp only [LeadModel.updateLeadList] at h
    rcases List.mem_cons.mp hl with hl | hl
    · subst hl
      have hcond : (l.id == leadId && l.tenant_id == t) = false := by
        simp [hne]
      rw [hcond] at h
      simp only [Bool.false_eq_true, if_false] at h
      rcases hrec : LeadModel.updateLeadList leadId t us now xs with _ | ls'' <;>
        rw [hrec] at h
      · cases h
      · cases h
        exact List.mem_cons_self _ _
    · rcases hhd : (if (x.id == leadId && x.tenant_id == t) = true then
          (LeadModel.applyLeadUpdates x us).map fun l' => { l' with updated_at := now }
        else some x) with _ | x' <;> rw [hhd] at h
      · cases h
      · rcases hrec : LeadModel.updateLeadList leadId t us now xs with _ | ls'' <;>
          rw [hrec] at h
        · cases h
        · cases h
          exact List.mem_cons_of_mem _ (ih ls'' hrec l hl hne)

/-- C1 (counterexample): `LeadModel.getCompleteLeadData` is a read path with
no tenant filter — called with tenant 2's lead id it returns tenant 2's row
even though the surrounding request authenticates as tenant 1, refuting
"every read and write path filters by the caller's tenant id". -/
theorem getCompleteLeadData_returns_foreign_row :
    LeadModel.getCompleteLeadData dbC1 10 = some leadT2 ∧
    leadT2.tenant_id = 2 ∧ (2 : Nat) ≠ 1 := by
  refine ⟨rfl, rfl, by decide⟩

/-- C1 (amended): every modelled read and write path of the entity access
layer filters by the caller's tenant id — tenant-scoped reads and existence
checks only acknowledge and return rows of the caller's tenant; the lead,
task and interaction list queries return only the caller's rows; creates
insert a row carrying the caller's tenant and leave every existing row
untouched; every update and delete (lead, contact, company, task, user, tag,
tag-unlink) leaves rows of any other tenant untouched — with two exceptions:
`LeadModel.getCompleteLeadData` reads a lead by raw id with no tenant filter
(its only caller passes the id of a lead created in the same request under
the caller's tenant), and `TagModel.linkToLead` inserts the raw
(lead_id, tag_id) join pair with no tenant column of its own (its callers
first check the lead exists under the caller's tenant and resolve the tag id
under the caller's tenant). -/
theorem tenant_scoped_paths :
    (∀ db leadId t r, LeadModel.findByIdWithDetails db leadId t = some r →
       r.tenant_id = t) ∧
    (∀ db cid t r, ContactModel.findById db cid t = some r → r.tenant_id = t) ∧
    (∀ db t e p r, ContactModel.findByEmailOrPhone db t e p = some r →
       r.tenant_id = t) ∧
    (∀ db leadId t, LeadModel.leadExists db leadId t = true →
       ∃ l ∈ db.leads, l.id = leadId ∧ l.tenant_id = t) ∧
    (∀ db tid t, TaskModel.taskExists db tid t = true →
       ∃ tk ∈ db.tasks, tk.id = tid ∧ tk.tenant_id = t) ∧
    (∀ db t f r, r ∈ (LeadModel.getLeadsWithFilters db t f).1 → r.tenant_id = t) ∧
    (∀ db t f r, r ∈ (TaskModel.getTasksWithFilters db t f).1 → r.tenant_id = t) ∧
    (∀ db t f r, r ∈ (InteractionModel.getInteractionsWithFilters db t f).1 →
       r.tenant_id = t) ∧
    (∀ db t d now, (ContactModel.create db t d now).2.tenant_id = t ∧
       ∀ c ∈ db.contacts, c ∈ (ContactModel.create db t d now).1.contacts) ∧
    (∀ db t d now, (LeadModel.create db t d now).2.tenant_id = t ∧
       ∀ l ∈ db.leads, l ∈ (LeadModel.create db t d now).1.leads) ∧
    (∀ db t nm, (TagModel.createOrGet db t nm).2.tenant_id = t ∧
       ∀ tg ∈ db.tags, tg ∈ (TagModel.createOrGet db t nm).1.tags) ∧
    (∀ db leadId t us now out, LeadModel.update db leadId t us now = .ok out →
       ∀ l ∈ db.leads, l.tenant_id ≠ t → l ∈ out.1.leads) ∧
    (∀ db cid t fn ln em ph dob co now, ∀ c ∈ db.contacts, c.tenant_id ≠ t →
       c ∈ (ContactModel.update db cid t fn ln em ph dob co now).1.contacts) ∧
    (∀ db cid t nm ws ph ad now, ∀ c ∈ db.companies, c.tenant_id ≠ t →
       c ∈ (CompanyModel.update db cid t nm ws ph ad now).1.companies) ∧
    (∀ db tid t st now, ∀ tk ∈ db.tasks, tk.tenant_id ≠ t →
       tk ∈ (TaskModel.updateStatus db tid t st now).1.tasks) ∧
    (∀ db uid t em nm ro ia pw, ∀ u ∈ db.users, u.tenant_id ≠ t →
       u ∈ (UserModel.update db uid t em nm ro ia pw).1.users) ∧
    (∀ db leadId t, ∀ l ∈ db.leads, l.tenant_id ≠ t →
       l ∈ (LeadModel.del db leadId t).1.leads) ∧
    (∀ db cid t, ∀ c ∈ db.contacts, c.tenant_id ≠ t →
       c ∈ (ContactModel.del db cid t).1.contacts) ∧
    (∀ db tagId t, ∀ tg ∈ db.tags, tg.tenant_id ≠ t →
       tg ∈ (TagModel.del db tagId t).1.tags) ∧
    (∀ db leadId nm t, ∀ pr ∈ db.lead_tags,
       pr ∉ (TagModel.removeFromLead db leadId nm t).1.lead_tags →
       ∃ tg ∈ db.tags, tg.id = pr.2 ∧ tg.tenant_id = t) := by
  refine ⟨?_, ?_, ?_, ?_, ?_, ?_, ?_, ?_, ?_, ?_, ?_, ?_, ?_, ?_, ?_, ?_, ?_,
    ?_, ?_, ?_⟩
  · intro db leadId t r h
    have := List.find?_some h
    simp only [Bool.and_eq_true, beq_iff_eq] at this
    exact this.2
  · intro db cid t r h
    have := List.find?_some h
    simp only [Bool.and_eq_true, beq_iff_eq] at this
    exact this.2
  · intro db t e p r h
    have := List.find?_some h
    simp only [Bool.and_eq_true, beq_iff_eq] at this
    exact this.1
  · intro db leadId t h
    obtain ⟨l, hl, hp⟩ := List.any_eq_true.mp h
    simp only [Bool.and_eq_true, beq_iff_eq] at hp
    exact ⟨l, hl, hp.1, hp.2⟩
  · intro db tid t h
    obtain ⟨tk, htk, hp⟩ := List.any_eq_true.mp h
    simp only [Bool.and_eq_true, beq_iff_eq] at hp
    exact ⟨tk, htk, hp.1, hp.2⟩
  · intro db t f r h
    have hmem := windowedPage_rows_subset _ _ _ h
    have := (List.mem_filter.mp hmem).2
    simp only [LeadModel.leadMatches, Bool.and_eq_true, beq_iff_eq] at this
    exact this.1.1.1.1.1
  · intro db t f r h
    have hmem := windowedPage_rows_subset _ _ _ h
    have := (List.mem_filter.mp hmem).2
    simp only [TaskModel.taskMatches, Bool.and_eq_true, beq_iff_eq] at this
    exact this.1.1.1.1.1
  · intro db t f r h
    have hmem := windowedPage_rows_subset _ _ _ h
    have := (List.mem_filter.mp hmem).2
    simp only [InteractionModel.interactionMatches, Bool.and_eq_true,
      beq_iff_eq] at this
    exact this.1.1.1.1.1.1
  · intro db t d now
    exact ⟨rfl, fun c hc => List.mem_append_left _ hc⟩
  · intro db t d now
    exact ⟨rfl, fun l hl => List.mem_append_left _ hl⟩
  · intro db t nm
    constructor
    · unfold TagModel.createOrGet
      rcases hf : db.tags.find? (fun tg => tg.tenant_id == t && tg.name == nm.trim)
          with _ | ex <;> rw [hf]
      all_goals first
      | rfl
      | (have hp := List.find?_some hf
         simp only [Bool.and_eq_true, beq_iff_eq] at hp
         exact hp.1)
    · intro tg htg
      unfold TagModel.createOrGet
      rcases hf : db.tags.find? (fun tg => tg.tenant_id == t && tg.name == nm.trim)
          with _ | ex <;> rw [hf]
      all_goals first
      | exact List.mem_append_left _ htg
      | exact htg
  · intro db leadId t us now out h l hl hne
    simp only [LeadModel.update] at h
    split at h
    · cases h
    · rcases hrec : LeadModel.updateLeadList leadId t us now db.leads with _ | ls' <;>
        rw [hrec] at h
      · cases h
      · cases h
        exact updateLeadList_keeps_other_tenants leadId t us now _ _ hrec l hl hne
  · intro db cid t fn ln em ph dob co now c hc hne
    simp only [ContactModel.update]
    refine List.mem_map.mpr ⟨c, hc, ?_⟩
    rw [if_neg]
    simp [hne]
  · intro db cid t nm ws ph ad now c hc hne
    simp only [CompanyModel.update]
    refine List.mem_map.mpr ⟨c, hc, ?_⟩
    rw [if_neg]
    simp [hne]
  · intro db tid t st now tk htk hne
    simp only [TaskModel.updateStatus]
    refine List.mem_map.mpr ⟨tk, htk, ?_⟩
    rw [if_neg]
    simp [hne]
  · intro db uid t em nm ro ia pw u hu hne
    simp only [UserModel.update]
    refine List.mem_map.mpr ⟨u, hu, ?_⟩
    rw [if_neg]
    simp [hne]
  · intro db leadId t l hl hne
    refine List.mem_filter.mpr ⟨hl, ?_⟩
    simp [hne]
  · intro db cid t c hc hne
    refine List.mem_filter.mpr ⟨hc, ?_⟩
    simp [hne]
  · intro db tagId t tg htg hne
    refine List.mem_filter.mpr ⟨htg, ?_⟩
    simp [hne]
  · intro db leadId nm t pr hpr hout
    simp only [TagModel.removeFromLead] at hout
    rcases hfind : db.tags.find? (fun tg => tg.name == nm && tg.tenant_id == t)
        with _ | tg <;> rw [hfind] at hout
    · exact absurd hpr hout
    · by_cases hkeep : (!(pr.1 == leadId && pr.2 == tg.id)) = true
      · exact absurd (List.mem_filter.mpr ⟨hpr, hkeep⟩) hout
      · have hpred := List.find?_some hfind
        simp only [Bool.and_eq_true, beq_iff_eq] at hpred
        simp only [Bool.not_eq_true', Bool.not_eq_false, Bool.and_eq_true,
          beq_iff_eq] at hkeep
        exact ⟨tg, List.mem_of_find?_eq_some hfind, hkeep.2.symm, hpred.2⟩

/-- C1 (witness): the amended tenant-scoping theorem applied to a concrete
one-row store. -/
theorem tenant_scoped_paths_witness : leadW.tenant_id = 1 :=
  tenant_scoped_paths.1 dbW1 5 1 leadW rfl

/-- C2 (code defect, evaluated at the failing input): the webhook controller
opens BEGIN/ROLLBACK on a dedicated client, but the contact and lead INSERTs
run through the pooled `db.query` where they autocommit, so when the
activity-log insertion fails the ROLLBACK discards only the client's own
statements: the contact and the lead persist with no activity row — an
observable lead-without-log state, contradicting the claimed atomicity. -/
theorem webhook_not_atomic_on_activity_failure :
    (webhookController.handleLeadCaptured dbC2 pC2 7 true).2 =
      webhookController.Outcome.failure ∧
    (webhookController.handleLeadCaptured dbC2 pC2 7 true).1.contacts.length = 1 ∧
    (webhookController.handleLeadCaptured dbC2 pC2 7 true).1.leads.length = 1 ∧
    (webhookController.handleLeadCaptured dbC2 pC2 7 true).1.activity_log = [] := by
  refine ⟨rfl, rfl, rfl, rfl⟩

/-- C10: the lead, task and interaction list queries all read the reported
total off the first returned row's `COUNT(*) OVER()` window count with a `0`
fallback, so whenever the requested page's slice is empty the reported total
is 0 — even when the filter set matches rows on earlier pages — and whenever
the slice is nonempty the reported total equals the matched-row count. -/
theorem window_count_total_semantics :
    (∀ db t f, (LeadModel.getLeadsWithFilters db t f).1 = [] →
       (LeadModel.getLeadsWithFilters db t f).2 = 0) ∧
    (∀ db t f, (LeadModel.getLeadsWithFilters db t f).1 ≠ [] →
       (LeadModel.getLeadsWithFilters db t f).2 =
         (db.leads.filter (LeadModel.leadMatches db t f)).length) ∧
    (∀ db t f, (TaskModel.getTasksWithFilters db t f).1 = [] →
       (TaskModel.getTasksWithFilters db t f).2 = 0) ∧
    (∀ db t f, (TaskModel.getTasksWithFilters db t f).1 ≠ [] →
       (TaskModel.getTasksWithFilters db t f).2 =
         (db.tasks.filter (TaskModel.taskMatches t f)).length) ∧
    (∀ db t f, (InteractionModel.getInteractionsWithFilters db t f).1 = [] →
       (InteractionModel.getInteractionsWithFilters db t f).2 = 0) ∧
    (∀ db t f, (InteractionModel.getInteractionsWithFilters db t f).1 ≠ [] →
       (InteractionModel.getInteractionsWithFilters db t f).2 =
         (db.interactions.filter (InteractionModel.interactionMatches t f)).length) := by
  refine ⟨?_, ?_, ?_, ?_, ?_, ?_⟩
  · intro db t f h
    exact windowedPage_total_of_rows_nil _ _ _ h
  · intro db t f h
    exact windowedPage_total_of_rows_ne_nil _ _ _ h
  · intro db t f h
    exact windowedPage_total_of_rows_nil _ _ _ h
  · intro db t f h
    exact windowedPage_total_of_rows_ne_nil _ _ _ h
  · intro db t f h
    exact windowedPage_total_of_rows_nil _ _ _ h
  · intro db t f h
    exact windowedPage_total_of_rows_ne_nil _ _ _ h

/-- C10 (witness): one matching lead, page 2 requested — the slice is empty
and the reported total is 0 although a matching row exists on page 1. -/
theorem window_count_total_semantics_witness :
    (LeadModel.getLeadsWithFilters dbC8 1 fC8).2 = 0 ∧
    (dbC8.leads.filter (LeadModel.leadMatches dbC8 1 fC8)).length = 1 :=
  ⟨window_count_total_semantics.1 dbC8 1 fC8 rfl, rfl⟩

/-- C8 (counterexample): one lead matches the empty filter set under tenant 1
(`N = 1`, `limit = 20`), but requesting `page = 2` reports `total = 0` and
`pages = 0` rather than the claimed `total = N = 1`, `pages = ceil(1/20) = 1`;
the empty list itself is returned as a success payload. -/
theorem pagination_metadata_zero_beyond_range :
    (leadsController.getLeads dbC8 1 fC8).2 =
      { page := 2, limit := 20, total := 0, pages := 0 } ∧
    (dbC8.leads.filter (LeadModel.leadMatches dbC8 1 fC8)).length = 1 ∧
    (0 : Nat) ≠ 1 := by
  refine ⟨rfl, rfl, by decide⟩

/-- C8 (amended): the page offset is always `(page − 1) × limit`; when the
requested slice is nonempty the reported total equals the matched-row count
`N` and `pages = ceil(N / limit)`; when the filter set matches no row beyond
the offset the endpoint returns an empty list with a success envelope whose
total and pages are 0 (not `N` and `ceil(N/limit)`, which is how the claim
fails beyond the last page). -/
theorem pagination_consistency :
    (∀ db t f, (leadsController.getLeads db t f).1 =
       ((db.leads.filter (LeadModel.leadMatches db t f)).drop
         ((f.page.getD 1 - 1) * f.limit.getD 20)).take (f.limit.getD 20)) ∧
    (∀ db t f, (leadsController.getLeads db t f).1 ≠ [] →
       (leadsController.getLeads db t f).2.total =
         (db.leads.filter (LeadModel.leadMatches db t f)).length ∧
       (leadsController.getLeads db t f).2.pages =
         natCeilDiv (db.leads.filter (LeadModel.leadMatches db t f)).length
           (f.limit.getD 20)) ∧
    (∀ db t f, (db.leads.filter (LeadModel.leadMatches db t f)).length ≤
         (f.page.getD 1 - 1) * f.limit.getD 20 →
       (leadsController.getLeads db t f).1 = [] ∧
       (leadsController.getLeads db t f).2.total = 0 ∧
       (leadsController.getLeads db t f).2.pages = 0) := by
  refine ⟨?_, ?_, ?_⟩
  · intro db t f
    rfl
  · intro db t f h
    have h' : (LeadModel.getLeadsWithFilters db t f).1 ≠ [] := h
    have htot' : (LeadModel.getLeadsWithFilters db t f).2 =
        (db.leads.filter (LeadModel.leadMatches db t f)).length :=
      windowedPage_total_of_rows_ne_nil
        (db.leads.filter (LeadModel.leadMatches db t f)) (f.page.getD 1) (f.limit.getD 20) h'
    refine ⟨htot', ?_⟩
    show natCeilDiv (LeadModel.getLeadsWithFilters db t f).2 (f.limit.getD 20) = _
    rw [htot']
  · intro db t f h
    have hw := windowedPage_rows_of_empty
      (db.leads.filter (LeadModel.leadMatches db t f)) (f.page.getD 1) (f.limit.getD 20) h
    have htot' : (LeadModel.getLeadsWithFilters db t f).2 = 0 := hw.2
    refine ⟨hw.1, htot', ?_⟩
    show natCeilDiv (LeadModel.getLeadsWithFilters db t f).2 (f.limit.getD 20) = 0
    rw [htot']
    rcases hl : f.limit.getD 20 with _ | n
    · rfl
    · simp only [natCeilDiv, Nat.zero_add]
      exact Nat.div_eq_of_lt (by omega)

/-- C8 (amended, witness): the three parts applied at the concrete one-lead
store: the slice equation, the in-range case on page 1 and the beyond-range
case on page 2. -/
theorem pagination_consistency_witness :
    (leadsController.getLeads dbC8 1 { }).2.total = 1 ∧
    (leadsController.getLeads dbC8 1 fC8).1 = [] := by
  constructor
  · exact (pagination_consistency.2.1 dbC8 1 { } (by decide)).1.trans (by rfl)
  · exact (pagination_consistency.2.2 dbC8 1 fC8 (by decide)).1

/-- C7 (counterexample): with `sort = "hack"` the lead list builder emits
`ORDER BY l.hack DESC` — the client-supplied string reaches the query text
verbatim; no allow-list check exists and the default `created_at` is not
substituted (the only field the builder itself knows is that default). -/
theorem sort_field_reaches_query_text :
    LeadModel.sortClause (some ("hack")) none = "ORDER BY l.hack DESC" ∧
    ("hack" : String) ≠ "created_at" := by
  refine ⟨by decide, by decide⟩

/-- C7 (amended): the lead list builder substitutes its default sort
`created_at` only when the option bag carries no sort at all, and splices any
supplied sort string verbatim into the ORDER BY text; the contact list
builder strips characters outside `[a-zA-Z0-9_.]` from the supplied sort
field and splices whatever survives (defaulting to `c.created_at DESC` only
when no sort is supplied) — neither builder checks an allow-list. -/
theorem sort_clause_construction :
    (∀ ord, LeadModel.sortClause none ord =
       "ORDER BY l.created_at " ++ strToUpper (ord.getD ("desc"))) ∧
    (∀ s ord, LeadModel.sortClause (some s) ord =
       "ORDER BY l." ++ s ++ " " ++ strToUpper (ord.getD ("desc"))) ∧
    (∀ s ord, contactSortClause (some s) ord =
       "ORDER BY " ++ contactSortField s ++ " " ++
         (if (ord.map strToUpper) == some ("DESC") then "DESC" else "ASC")) ∧
    (∀ s, (contactSortField s).toList.all sortChar = true) ∧
    (∀ ord, contactSortClause none ord = "ORDER BY c.created_at DESC") := by
  refine ⟨fun ord => rfl, fun s ord => rfl, fun s ord => rfl, ?_, fun ord => rfl⟩
  intro s
  simp only [contactSortField, List.all_eq_true]
  intro c hc
  have : c ∈ s.toList.filter sortChar := by
    simpa [String.toList] using hc
  exact (List.mem_filter.mp this).2

/-- C7 (amended, witness): the clause equations evaluated at concrete sorts:
an absent sort yields the default, a supplied string is spliced, and the
contact sanitiser keeps only the allowed characters. -/
theorem sort_clause_construction_witness :
    LeadModel.sortClause none none = "ORDER BY l.created_at DESC" ∧
    LeadModel.sortClause (some ("hack")) (some ("asc")) = "ORDER BY l.hack ASC" ∧
    contactSortClause (some ("na me;--")) (some ("desc")) = "ORDER BY name DESC" := by
  refine ⟨(sort_clause_construction.1 none).trans (by decide), ?_, ?_⟩
  · exact (sort_clause_construction.2.1 ("hack") (some ("asc"))).trans (by decide)
  · exact (sort_clause_construction.2.2.1 ("na me;--") (some ("desc"))).trans (by decide)

/-- C9 (counterexample): a webhook call whose visitor has neither email nor
phone creates NO contact row at all (the source guards the whole dedup block
with `visitor && (visitor.email || visitor.phone)`), and the lead is created
with a null contact reference — refuting "the call always creates a new
contact row". -/
theorem no_key_creates_no_contact_concrete :
    (webhookController.handleLeadCaptured dbC9 pC9 3 false).1.contacts = [] ∧
    (webhookController.handleLeadCaptured dbC9 pC9 3 false).2 =
      webhookController.Outcome.success 0 none := by
  refine ⟨rfl, rfl⟩

/-- C9 (amended): when the incoming contact reference supplies neither an
email nor a phone, both ingestion paths skip the dedup search entirely and
create no contact: the webhook leaves the contacts table unchanged and (on
success) reports a null contact id, and `createLead` likewise leaves the
contacts table unchanged and creates the lead with a null contact
reference. -/
theorem no_key_no_contact :
    (∀ db p v now af, p.visitor = some v → v.email = none → v.phone = none →
       (webhookController.handleLeadCaptured db p now af).1.contacts = db.contacts ∧
       (p.tenant_id ∈ db.tenants → af = false →
         (webhookController.handleLeadCaptured db p now af).2 =
           webhookController.Outcome.success db.nextId none)) ∧
    (∀ db t uid body ct now, body.contact = some ct → ct.email = none →
       ct.phone = none →
       (leadsController.createLead db t uid body now).1.contacts = db.contacts ∧
       (leadsController.createLead db t uid body now).2.contact_id = none) := by
  constructor
  · intro db p v now af hv he hp
    by_cases ht : p.tenant_id ∈ db.tenants
    · constructor
      · simp [webhookController.handleLeadCaptured, webhookController.resolveContact,
          hv, he, hp, LeadModel.create, ht]
        split <;> rfl
      · intro _ haf
        subst haf
        simp [webhookController.handleLeadCaptured, webhookController.resolveContact,
          hv, he, hp, LeadModel.create, ht, webhookController.webhookLeadData]
    · constructor
      · simp [webhookController.handleLeadCaptured, ht]
      · intro ht'; exact absurd ht' ht
  · intro db t uid body ct now hb he hp
    constructor
    · simp [leadsController.createLead, hb, he, hp, LeadModel.create]
    · simp [leadsController.createLead, hb, he, hp, LeadModel.create]

/-- C9 (amended, witness): the webhook part applied at the concrete
no-key payload. -/
theorem no_key_no_contact_witness :
    (webhookController.handleLeadCaptured dbC9 pC9 3 false).1.contacts = [] ∧
    (webhookController.handleLeadCaptured dbC9 pC9 3 false).2 =
      webhookController.Outcome.success 0 none := by
  have h := no_key_no_contact.1 dbC9 pC9 { first_name := some ("A") } 3 false rfl rfl rfl
  exact ⟨h.1, h.2 (by decide) rfl⟩

theorem parseLeadField_name (f : String) (fd : LeadModel.LeadField)
    (h : LeadModel.parseLeadField f = some fd) : f = LeadModel.leadFieldName fd := by
  unfold LeadModel.parseLeadField at h
  by_cases h0 : (f == "contact_id") = true
  · rw [if_pos h0] at h
    cases h
    exact beq_iff_eq.mp h0
  · rw [if_neg h0] at h
    by_cases h1 : (f == "owner_user_id") = true
    · rw [if_pos h1] at h
      cases h
      exact beq_iff_eq.mp h1
    · rw [if_neg h1] at h
      by_cases h2 : (f == "title") = true
      · rw [if_pos h2] at h
        cases h
        exact beq_iff_eq.mp h2
      · rw [if_neg h2] at h
        by_cases h3 : (f == "status") = true
        · rw [if_pos h3] at h
          cases h
          exact beq_iff_eq.mp h3
        · rw [if_neg h3] at h
          by_cases h4 : (f == "stage") = true
          · rw [if_pos h4] at h
            cases h
            exact beq_iff_eq.mp h4
          · rw [if_neg h4] at h
            by_cases h5 : (f == "score") = true
            · rw [if_pos h5] at h
              cases h
              exact beq_iff_eq.mp h5
            · rw [if_neg h5] at h
              by_cases h6 : (f == "source") = true
              · rw [if_pos h6] at h
                cases h
                exact beq_iff_eq.mp h6
              · rw [if_neg h6] at h
                by_cases h7 : (f == "exhibition_id") = true
                · rw [if_pos h7] at h
                  cases h
                  exact beq_iff_eq.mp h7
                · rw [if_neg h7] at h
                  by_cases h8 : (f == "join_id") = true
                  · rw [if_pos h8] at h
                    cases h
                    exact beq_iff_eq.mp h8
                  · rw [if_neg h8] at h
                    by_cases h9 : (f == "utm_source") = true
                    · rw [if_pos h9] at h
                      cases h
                      exact beq_iff_eq.mp h9
                    · rw [if_neg h9] at h
                      by_cases h10 : (f == "utm_medium") = true
                      · rw [if_pos h10] at h
                        cases h
                        exact beq_iff_eq.mp h10
                      · rw [if_neg h10] at h
                        by_cases h11 : (f == "utm_campaign") = true
                        · rw [if_pos h11] at h
                          cases h
                          exact beq_iff_eq.mp h11
                        · rw [if_neg h11] at h
                          by_cases h12 : (f == "notes") = true
                          · rw [if_pos h12] at h
                            cases h
                            exact beq_iff_eq.mp h12
                          · rw [if_neg h12] at h
                            by_cases h13 : (f == "tenant_id") = true
                            · rw [if_pos h13] at h
                              cases h
                              exact beq_iff_eq.mp h13
                            · rw [if_neg h13] at h
                              by_cases h14 : (f == "id") = true
                              · rw [if_pos h14] at h
                                cases h
                                exact beq_iff_eq.mp h14
                              · rw [if_neg h14] at h
                                by_cases h15 : (f == "created_at") = true
                                · rw [if_pos h15] at h
                                  cases h
                                  exact beq_iff_eq.mp h15
                                · rw [if_neg h15] at h
                                  cases h

theorem applyLeadField_kept (l l' : LeadRow) (fd : LeadModel.LeadField)
    (v : SqlVal) (h : LeadModel.applyLeadField l fd v = some l') :
    keptColsOne (LeadModel.leadFieldName fd) l l' := by
  cases fd <;> cases v <;>
    simp only [LeadModel.applyLeadField] at h <;>
    (try cases h) <;>
    refine ⟨?_, ?_, ?_, ?_, ?_, ?_, ?_, ?_, ?_, ?_, ?_, ?_, ?_⟩ <;>
    intro hf <;>
    first
    | rfl
    | exact absurd rfl hf

theorem setLeadField_kept (l l' : LeadRow) (f : String) (v : SqlVal)
    (h : LeadModel.setLeadField l (f, v) = some l') : keptColsOne f l l' := by
  unfold LeadModel.setLeadField at h
  rcases hp : LeadModel.parseLeadField f with _ | fd <;> rw [hp] at h
  · cases h
  · rw [parseLeadField_name f fd hp]
    exact applyLeadField_kept l l' fd v h

theorem keptCols_refl (us : List (String × SqlVal)) (l : LeadRow) :
    keptCols us l l :=
  ⟨fun _ => rfl, fun _ => rfl, fun _ => rfl, fun _ => rfl, fun _ => rfl,
   fun _ => rfl, fun _ => rfl, fun _ => rfl, fun _ => rfl, fun _ => rfl,
   fun _ => rfl, fun _ => rfl, fun _ => rfl⟩

theorem keptCols_updated_at (us : List (String × SqlVal)) (l l1 : LeadRow)
    (now : Nat) (h : keptCols us l l1) :
    keptCols us l { l1 with updated_at := now } := h

theorem keptCols_cons (f : String) (v : SqlVal) (us : List (String × SqlVal))
    (l l1 l2 : LeadRow) (hA : keptColsOne f l l1) (hB : keptCols us l1 l2) :
    keptCols ((f, v) :: us) l l2 := by
  obtain ⟨a1, a2, a3, a4, a5, a6, a7, a8, a9, a10, a11, a12, a13⟩ := hA
  obtain ⟨b1, b2, b3, b4, b5, b6, b7, b8, b9, b10, b11, b12, b13⟩ := hB
  refine ⟨?_, ?_, ?_, ?_, ?_, ?_, ?_, ?_, ?_, ?_, ?_, ?_, ?_⟩ <;>
    (intro hn
     rw [List.map_cons, List.mem_cons] at hn
     push_neg at hn) <;>
    first
    | exact (b1 hn.2).trans (a1 hn.1)
    | exact (b2 hn.2).trans (a2 hn.1)
    | exact (b3 hn.2).trans (a3 hn.1)
    | exact (b4 hn.2).trans (a4 hn.1)
    | exact (b5 hn.2).trans (a5 hn.1)
    | exact (b6 hn.2).trans (a6 hn.1)
    | exact (b7 hn.2).trans (a7 hn.1)
    | exact (b8 hn.2).trans (a8 hn.1)
    | exact (b9 hn.2).trans (a9 hn.1)
    | exact (b10 hn.2).trans (a10 hn.1)
    | exact (b11 hn.2).trans (a11 hn.1)
    | exact (b12 hn.2).trans (a12 hn.1)
    | exact (b13 hn.2).trans (a13 hn.1)

theorem applyLeadUpdates_kept (us : List (String × SqlVal)) :
    ∀ (l l' : LeadRow), LeadModel.applyLeadUpdates l us = some l' →
      keptCols us l l' := by
  induction us with
  | nil =>
    intro l l' h
    cases h
    exact keptCols_refl [] l
  | cons u rest ih =>
    intro l l' h
    simp only [LeadModel.applyLeadUpdates] at h
    rcases hu : LeadModel.setLeadField l u with _ | l1 <;> rw [hu] at h
    · cases h
    · exact keptCols_cons u.1 u.2 rest l l1 l'
        (setLeadField_kept l l1 u.1 u.2 hu) (ih l1 l' h)

theorem updateLeadList_kept (leadId t : Nat) (us : List (String × SqlVal))
    (now : Nat) :
    ∀ (ls ls' : List LeadRow),
      LeadModel.updateLeadList leadId t us now ls = some ls' →
      ∀ l ∈ ls, ∃ l' ∈ ls', keptCols us l l' := by
  intro ls
  induction ls with
  | nil => intro ls' _ l hl; cases hl
  | cons x xs ih =>
    intro ls' h l hl
    simp only [LeadModel.updateLeadList] at h
    rcases hhd : (if (x.id == leadId && x.tenant_id == t) = true then
        (LeadModel.applyLeadUpdates x us).map fun l1 => { l1 with updated_at := now }
      else some x) with _ | x' <;> rw [hhd] at h
    · cases h
    · rcases hrec : LeadModel.updateLeadList leadId t us now xs with _ | ls'' <;>
        rw [hrec] at h
      · cases h
      · cases h
        rcases List.mem_cons.mp hl with hl | hl
        · subst hl
          refine ⟨x', List.mem_cons_self _ _, ?_⟩
          by_cases hc : (l.id == leadId && l.tenant_id == t) = true
          · rw [if_pos hc] at hhd
            rcases ha : LeadModel.applyLeadUpdates l us with _ | l1 <;>
              rw [ha] at hhd
            · cases hhd
            · cases hhd
              exact keptCols_updated_at us l l1 now (applyLeadUpdates_kept us l l1 ha)
          · rw [if_neg hc] at hhd
            cases hhd
            exact keptCols_refl us l
        · obtain ⟨l', hl', hk⟩ := ih ls'' hrec l hl
          exact ⟨l', List.mem_cons_of_mem _ hl', hk⟩

/-- C5 (counterexample): `LeadModel.update` with an empty field bag builds the
malformed text `UPDATE leads SET , updated_at = ...` (the joined SET clause
of zero fields is empty) and the call errors instead of succeeding. -/
theorem lead_update_empty_bag_errors :
    LeadModel.update dbC5 1 1 [] 9 = Except.error LeadModel.emptySetClauseError := rfl

/-- C5 (amended): the COALESCE-style updates — CompanyModel.update (cited),
ContactModel.update and UserModel.update — keep, for EVERY partial bag, each
omitted (absent) field at its stored value, and with an empty bag succeed
returning the row unchanged except the refreshed updated-timestamp (User's
statement refreshes no timestamp, so its row is returned fully unchanged);
LeadModel.update keeps every column omitted from a nonempty bag at its stored
value; but LeadModel.update with an EMPTY bag emits a malformed SET clause
and errors rather than succeeding. -/
theorem update_merge_semantics :
    (∀ db leadId t now,
       LeadModel.update db leadId t [] now =
         Except.error LeadModel.emptySetClauseError) ∧
    (∀ db leadId t us now out, LeadModel.update db leadId t us now = .ok out →
       ∀ l ∈ db.leads, ∃ l' ∈ out.1.leads, keptCols us l l') ∧
    (∀ db cid t nm ws ph ad now, ∀ c ∈ db.companies,
       ∃ c' ∈ (CompanyModel.update db cid t nm ws ph ad now).1.companies,
         c'.id = c.id ∧ c'.tenant_id = c.tenant_id ∧
         c'.created_at = c.created_at ∧
         (nm = none → c'.name = c.name) ∧
         (ws = none → c'.website = c.website) ∧
         (ph = none → c'.phone = c.phone) ∧
         (ad = none → c'.address = c.address) ∧
         (c'.updated_at = now ∨ c' = c)) ∧
    (∀ db cid t fn ln em ph dob co now, ∀ c ∈ db.contacts,
       ∃ c' ∈ (ContactModel.update db cid t fn ln em ph dob co now).1.contacts,
         c'.id = c.id ∧ c'.tenant_id = c.tenant_id ∧
         c'.kf_visitor_id = c.kf_visitor_id ∧ c'.source = c.source ∧
         c'.created_at = c.created_at ∧
         (fn = none → c'.first_name = c.first_name) ∧
         (ln = none → c'.last_name = c.last_name) ∧
         (em = none → c'.email = c.email) ∧
         (ph = none → c'.phone = c.phone) ∧
         (dob = none → c'.dob = c.dob) ∧
         (co = none → c'.company_id = c.company_id) ∧
         (c'.updated_at = now ∨ c' = c)) ∧
    (∀ db uid t em nm ro ia pw, ∀ u ∈ db.users,
       ∃ u' ∈ (UserModel.update db uid t em nm ro ia pw).1.users,
         u'.id = u.id ∧ u'.tenant_id = u.tenant_id ∧
         u'.created_at = u.created_at ∧
         (em = none → u'.email = u.email) ∧
         (nm = none → u'.name = u.name) ∧
         (ro = none → u'.role = u.role) ∧
         (ia = none → u'.is_active = u.is_active) ∧
         (pw = none → u'.password_hash = u.password_hash)) ∧
    (∀ db cid t now, ∀ c ∈ db.companies,
       ∃ c' ∈ (CompanyModel.update db cid t none none none none now).1.companies,
         c' = c ∨ c' = { c with updated_at := now }) ∧
    (∀ db cid t now, ∀ c ∈ db.contacts,
       ∃ c' ∈ (ContactModel.update db cid t none none none none none none
           now).1.contacts,
         c' = c ∨ c' = { c with updated_at := now }) ∧
    (∀ db uid t, ∀ u ∈ db.users,
       ∃ u' ∈ (UserModel.update db uid t none none none none none).1.users,
         u' = u) := by
  refine ⟨?_, ?_, ?_, ?_, ?_, ?_, ?_, ?_⟩
  · intro db leadId t now
    rfl
  · intro db leadId t us now out h l hl
    simp only [LeadModel.update] at h
    split at h
    · cases h
    · rcases hrec : LeadModel.updateLeadList leadId t us now db.leads with _ | ls' <;>
        rw [hrec] at h
      · cases h
      · cases h
        exact updateLeadList_kept leadId t us now db.leads ls' hrec l hl
  · intro db cid t nm ws ph ad now c hc
    simp only [CompanyModel.update]
    refine ⟨_, List.mem_map.mpr ⟨c, hc, rfl⟩, ?_⟩
    by_cases hcond : (c.id == cid && c.tenant_id == t) = true
    · rw [if_pos hcond]
      refine ⟨rfl, rfl, rfl, ?_, ?_, ?_, ?_, Or.inl rfl⟩ <;>
        (intro h; subst h; rfl)
    · rw [if_neg hcond]
      exact ⟨rfl, rfl, rfl, fun _ => rfl, fun _ => rfl, fun _ => rfl,
        fun _ => rfl, Or.inr rfl⟩
  · intro db cid t fn ln em ph dob co now c hc
    simp only [ContactModel.update]
    refine ⟨_, List.mem_map.mpr ⟨c, hc, rfl⟩, ?_⟩
    by_cases hcond : (c.id == cid && c.tenant_id == t) = true
    · rw [if_pos hcond]
      refine ⟨rfl, rfl, rfl, rfl, rfl, ?_, ?_, ?_, ?_, ?_, ?_, Or.inl rfl⟩ <;>
        (intro h; subst h; rfl)
    · rw [if_neg hcond]
      exact ⟨rfl, rfl, rfl, rfl, rfl, fun _ => rfl, fun _ => rfl, fun _ => rfl,
        fun _ => rfl, fun _ => rfl, fun _ => rfl, Or.inr rfl⟩
  · intro db uid t em nm ro ia pw u hu
    simp only [UserModel.update]
    refine ⟨_, List.mem_map.mpr ⟨u, hu, rfl⟩, ?_⟩
    by_cases hcond : (u.id == uid && u.tenant_id == t) = true
    · rw [if_pos hcond]
      refine ⟨rfl, rfl, rfl, ?_, ?_, ?_, ?_, ?_⟩ <;>
        (intro h; subst h; rfl)
    · rw [if_neg hcond]
      exact ⟨rfl, rfl, rfl, fun _ => rfl, fun _ => rfl, fun _ => rfl,
        fun _ => rfl, fun _ => rfl⟩
  · intro db cid t now c hc
    simp only [CompanyModel.update]
    refine ⟨_, List.mem_map.mpr ⟨c, hc, rfl⟩, ?_⟩
    by_cases hcond : (c.id == cid && c.tenant_id == t) = true
    · rw [if_pos hcond]
      right
      rfl
    · rw [if_neg hcond]
      left
      rfl
  · intro db cid t now c hc
    simp only [ContactModel.update]
    refine ⟨_, List.mem_map.mpr ⟨c, hc, rfl⟩, ?_⟩
    by_cases hcond : (c.id == cid && c.tenant_id == t) = true
    · rw [if_pos hcond]
      right
      rfl
    · rw [if_neg hcond]
      left
      rfl
  · intro db uid t u hu
    simp only [UserModel.update]
    refine ⟨_, List.mem_map.mpr ⟨u, hu, rfl⟩, ?_⟩
    by_cases hcond : (u.id == uid && u.tenant_id == t) = true
    · rw [if_pos hcond]
      rfl
    · rw [if_neg hcond]

/-- C5 (amended, witness): every part applied at concrete inputs — the empty
lead bag errors, a `status`-only lead bag keeps every other column, a
name-only company bag keeps website/phone/address, a first-name-only contact
bag keeps the other columns (including `kf_visitor_id`), an email-only user
bag keeps the rest, and the all-absent bags leave company/contact rows
changed at most in `updated_at` and the user row fully unchanged. -/
theorem update_merge_semantics_witness :
    LeadModel.update dbC5 1 1 [] 9 = Except.error LeadModel.emptySetClauseError ∧
    (∃ l' ∈ outW.1.leads, keptCols usW lead5 l') ∧
    (∃ c' ∈ (CompanyModel.update dbC5c 3 1 (some ("NewName")) none none none
        9).1.companies,
       c'.id = companyC5.id ∧ c'.tenant_id = companyC5.tenant_id ∧
       c'.created_at = companyC5.created_at ∧
       ((some ("NewName") : Option String) = none → c'.name = companyC5.name) ∧
       ((none : Option String) = none → c'.website = companyC5.website) ∧
       ((none : Option String) = none → c'.phone = companyC5.phone) ∧
       ((none : Option String) = none → c'.address = companyC5.address) ∧
       (c'.updated_at = 9 ∨ c' = companyC5)) ∧
    (∃ c' ∈ (ContactModel.update dbC4 1 1 (some ("Zed")) none none none none
        none 9).1.contacts,
       c'.id = contactFull.id ∧ c'.tenant_id = contactFull.tenant_id ∧
       c'.kf_visitor_id = contactFull.kf_visitor_id ∧
       c'.source = contactFull.source ∧
       c'.created_at = contactFull.created_at ∧
       ((some ("Zed") : Option String) = none → c'.first_name = contactFull.first_name) ∧
       ((none : Option String) = none → c'.last_name = contactFull.last_name) ∧
       ((none : Option String) = none → c'.email = contactFull.email) ∧
       ((none : Option String) = none → c'.phone = contactFull.phone) ∧
       ((none : Option String) = none → c'.dob = contactFull.dob) ∧
       ((none : Option Nat) = none → c'.company_id = contactFull.company_id) ∧
       (c'.updated_at = 9 ∨ c' = contactFull)) ∧
    (∃ u' ∈ (UserModel.update dbC5u 2 1 (some ("n@x.com")) none none none
        none).1.users,
       u'.id = userRow.id ∧ u'.tenant_id = userRow.tenant_id ∧
       u'.created_at = userRow.created_at ∧
       ((some ("n@x.com") : Option String) = none → u'.email = userRow.email) ∧
       ((none : Option String) = none → u'.name = userRow.name) ∧
       ((none : Option String) = none → u'.role = userRow.role) ∧
       ((none : Option Bool) = none → u'.is_active = userRow.is_active) ∧
       ((none : Option String) = none → u'.password_hash = userRow.password_hash)) ∧
    (∃ c' ∈ (CompanyModel.update dbC5c 3 1 none none none none 9).1.companies,
       c' = companyC5 ∨ c' = { companyC5 with updated_at := 9 }) ∧
    (∃ c' ∈ (ContactModel.update dbC4 1 1 none none none none none none
        9).1.contacts,
       c' = contactFull ∨ c' = { contactFull with updated_at := 9 }) ∧
    (∃ u' ∈ (UserModel.update dbC5u 2 1 none none none none none).1.users,
       u' = userRow) := by
  refine ⟨update_merge_semantics.1 dbC5 1 1 9, ?_, ?_, ?_, ?_, ?_, ?_, ?_⟩
  · exact update_merge_semantics.2.1 dbC5 1 1 usW 9 outW rfl lead5
      (List.mem_cons_self _ _)
  · exact update_merge_semantics.2.2.1 dbC5c 3 1 (some ("NewName")) none none
      none 9 companyC5 (List.mem_cons_self _ _)
  · exact update_merge_semantics.2.2.2.1 dbC4 1 1 (some ("Zed")) none none none
      none none 9 contactFull (List.mem_cons_self _ _)
  · exact update_merge_semantics.2.2.2.2.1 dbC5u 2 1 (some ("n@x.com")) none
      none none none userRow (List.mem_cons_self _ _)
  · exact update_merge_semantics.2.2.2.2.2.1 dbC5c 3 1 9 companyC5
      (List.mem_cons_self _ _)
  · exact update_merge_semantics.2.2.2.2.2.2.1 dbC4 1 1 9 contactFull
      (List.mem_cons_self _ _)
  · exact update_merge_semantics.2.2.2.2.2.2.2 dbC5u 2 1 userRow
      (List.mem_cons_self _ _)

theorem mem_of_countPair_pos {xs : List (Nat × Nat)} {p : Nat × Nat}
    (h : 1 ≤ countPair xs p) : p ∈ xs := by
  by_contra hn
  rw [countPair_eq_zero_of_not_mem hn] at h
  omega

theorem createOrGet_lead_tags (db : DB) (t : Nat) (n : String) :
    (TagModel.createOrGet db t n).1.lead_tags = db.lead_tags := by
  unfold TagModel.createOrGet
  split <;> rfl

theorem linkToLead_tags (db : DB) (l g : Nat) :
    (TagModel.linkToLead db l g).tags = db.tags := by
  unfold TagModel.linkToLead
  split <;> rfl

theorem linkToLead_count (db : DB) (l g : Nat)
    (h : countPair db.lead_tags (l, g) ≤ 1) :
    countPair (TagModel.linkToLead db l g).lead_tags (l, g) = 1 := by
  unfold TagModel.linkToLead
  split
  · rename_i hm
    have := countPair_pos_of_mem hm
    omega
  · rename_i hm
    show countPair (db.lead_tags ++ [(l, g)]) (l, g) = 1
    rw [countPair_append, countPair_eq_zero_of_not_mem hm, countPair_singleton_self]

theorem createOrGet_snd_stable (db db' : DB) (t : Nat) (n : String)
    (htags : db'.tags = (TagModel.createOrGet db t n).1.tags) :
    (TagModel.createOrGet db' t n).2 = (TagModel.createOrGet db t n).2 := by
  rcases hfind : db.tags.find? (fun tg => tg.tenant_id == t && tg.name == n.trim)
      with _ | ex
  · unfold TagModel.createOrGet at htags ⊢
    rw [hfind] at htags ⊢
    have hfind' : db'.tags.find? (fun tg => tg.tenant_id == t && tg.name == n.trim) =
        some { id := db.nextId, tenant_id := t, name := n.trim } := by
      rw [htags, List.find?_append, hfind]
      simp [List.find?]
    rw [hfind']
  · unfold TagModel.createOrGet at htags ⊢
    rw [hfind] at htags ⊢
    rw [htags, hfind]

/-- C6: resolving a tag name is an insert-or-fetch upsert keyed on the tenant
and the trimmed name — a second resolution of the same name (after linking)
returns the very same tag row — and linking the resolved tag to a lead twice
leaves exactly one (lead, tag) association in the join relation; both calls
are total (the ON CONFLICT clauses make re-insertion a fetch and re-linking a
no-op, never an error). -/
theorem tag_resolution_link_idempotent (db : DB) (t leadId : Nat) (name : String)
    (s1 : DB × TagRow) (hs1 : TagModel.createOrGet db t name = s1)
    (db2 : DB) (hdb2 : TagModel.linkToLead s1.1 leadId s1.2.id = db2)
    (s2 : DB × TagRow) (hs2 : TagModel.createOrGet db2 t name = s2)
    (db4 : DB) (hdb4 : TagModel.linkToLead s2.1 leadId s2.2.id = db4)
    (hdup : countPair db.lead_tags (leadId, s1.2.id) ≤ 1) :
    s2.2 = s1.2 ∧ countPair db4.lead_tags (leadId, s1.2.id) = 1 := by
  subst hs1
  subst hdb2
  subst hs2
  subst hdb4
  have hsnd : (TagModel.createOrGet
      (TagModel.linkToLead (TagModel.createOrGet db t name).1 leadId
        (TagModel.createOrGet db t name).2.id) t name).2 =
      (TagModel.createOrGet db t name).2 :=
    createOrGet_snd_stable db _ t name (linkToLead_tags _ _ _)
  refine ⟨hsnd, ?_⟩
  have h1 : countPair (TagModel.createOrGet db t name).1.lead_tags
      (leadId, (TagModel.createOrGet db t name).2.id) ≤ 1 := by
    rw [createOrGet_lead_tags]
    exact hdup
  have h2 := linkToLead_count (TagModel.createOrGet db t name).1 leadId
      (TagModel.createOrGet db t name).2.id h1
  have h3 : countPair (TagModel.createOrGet
      (TagModel.linkToLead (TagModel.createOrGet db t name).1 leadId
        (TagModel.createOrGet db t name).2.id) t name).1.lead_tags
      (leadId, (TagModel.createOrGet db t name).2.id) ≤ 1 := by
    rw [createOrGet_lead_tags]
    omega
  rw [hsnd]
  exact linkToLead_count _ leadId _ h3

/-- C6 (witness): the idempotence theorem applied to an empty store — tag
" hot " is trimmed, minted once with id 40, and the (5, 40) association is
unique after two link calls. -/
theorem tag_resolution_link_idempotent_witness :
    (TagModel.createOrGet
        (TagModel.linkToLead (TagModel.createOrGet dbC6 1 (" hot ")).1 5
          (TagModel.createOrGet dbC6 1 (" hot ")).2.id) 1 (" hot ")).2 =
      (TagModel.createOrGet dbC6 1 (" hot ")).2 ∧
    countPair (TagModel.linkToLead
        (TagModel.createOrGet
          (TagModel.linkToLead (TagModel.createOrGet dbC6 1 (" hot ")).1 5
            (TagModel.createOrGet dbC6 1 (" hot ")).2.id) 1 (" hot ")).1 5
        (TagModel.createOrGet
          (TagModel.linkToLead (TagModel.createOrGet dbC6 1 (" hot ")).1 5
            (TagModel.createOrGet dbC6 1 (" hot ")).2.id) 1 (" hot ")).2.id).lead_tags
      (5, (TagModel.createOrGet dbC6 1 (" hot ")).2.id) = 1 :=
  tag_resolution_link_idempotent dbC6 1 5 (" hot ") _ rfl _ rfl _ rfl _ rfl
    (by decide)

/-- C4: when the incoming visitor matches an existing contact, the persisted
effect on every stored contact row is exactly: already-populated fields —
including an already-populated external-visitor-id — keep their stored
values, and only an empty first or last name may be filled from the incoming
data.  (The controller does put `kf_visitor_id` into its backfill bag
unconditionally, but `ContactModel.update` destructures only the six columns
it knows and drops that key, so the stored `kf_visitor_id` is never written
at all.) -/
theorem dedup_backfill_frame (db : DB) (p : webhookController.Payload)
    (v : webhookController.Visitor) (ex : ContactRow) (now : Nat) (af : Bool)
    (hv : p.visitor = some v)
    (hkey : (v.email.isSome || v.phone.isSome) = true)
    (hid : db.contacts.Pairwise fun a b => a.id ≠ b.id)
    (hfound : ContactModel.findByEmailOrPhone db p.tenant_id v.email v.phone = some ex) :
    ∀ c ∈ db.contacts,
      ∃ c' ∈ (webhookController.handleLeadCaptured db p now af).1.contacts,
        c'.id = c.id ∧ c'.tenant_id = c.tenant_id ∧
        c'.kf_visitor_id = c.kf_visitor_id ∧ c'.email = c.email ∧
        c'.phone = c.phone ∧ c'.dob = c.dob ∧ c'.company_id = c.company_id ∧
        c'.source = c.source ∧
        (c.first_name.isSome = true → c'.first_name = c.first_name) ∧
        (c.last_name.isSome = true → c'.last_name = c.last_name) ∧
        (c'.first_name = c.first_name ∨ c'.first_name = v.first_name) ∧
        (c'.last_name = c.last_name ∨ c'.last_name = v.last_name) := by
  intro c hc
  by_cases ht : p.tenant_id ∈ db.tenants
  · have hcts : (webhookController.handleLeadCaptured db p now af).1.contacts =
        (webhookController.resolveContact db p.tenant_id p.visitor now).1.contacts := by
      simp only [webhookController.handleLeadCaptured]
      rw [if_pos ht]
      cases af <;> rfl
    rw [hcts, hv]
    simp only [webhookController.resolveContact]
    rw [if_pos hkey, hfound]
    dsimp only
    by_cases hud : (webhookController.mkUpdateData v ex).nonEmpty = true
    · rw [if_pos hud]
      simp only [ContactModel.update]
      by_cases hcnd : (c.id == ex.id && c.tenant_id == p.tenant_id) = true
      · have hceq : c = ex := by
          have hex := List.mem_of_find?_eq_some hfound
          have hids : c.id = ex.id := by
            have h' := hcnd
            simp only [Bool.and_eq_true, beq_iff_eq] at h'
            exact h'.1
          exact eq_of_mem_pairwise_key hid hc hex hids
        subst hceq
        refine ⟨_, List.mem_map.mpr ⟨c, hc, rfl⟩, ?_⟩
        rw [if_pos hcnd]
        simp only [webhookController.mkUpdateData]
        refine ⟨by first | rfl | trivial, by first | rfl | trivial,
          by first | rfl | trivial, by first | rfl | trivial,
          by first | rfl | trivial, by first | rfl | trivial,
          by first | rfl | trivial, by first | rfl | trivial, ?_, ?_, ?_, ?_⟩
        · intro hs
          rcases hfe : c.first_name with _ | s
          · rw [hfe] at hs
            cases hs
          · simp [hfe]
        · intro hs
          rcases hfe : c.last_name with _ | s
          · rw [hfe] at hs
            cases hs
          · simp [hfe]
        · rcases hvf : v.first_name with _ | s
          · simp
          · rcases hfe : c.first_name with _ | w
            · right
              simp [hfe]
            · left
              simp [hfe]
        · rcases hvf : v.last_name with _ | s
          · simp
          · rcases hfe : c.last_name with _ | w
            · right
              simp [hfe]
            · left
              simp [hfe]
      · refine ⟨c, List.mem_map.mpr ⟨c, hc, by rw [if_neg hcnd]⟩, rfl, rfl, rfl,
          rfl, rfl, rfl, rfl, rfl, fun _ => rfl, fun _ => rfl, Or.inl rfl, Or.inl rfl⟩
    · rw [if_neg hud]
      exact ⟨c, hc, rfl, rfl, rfl, rfl, rfl, rfl, rfl, rfl, fun _ => rfl,
        fun _ => rfl, Or.inl rfl, Or.inl rfl⟩
  · have hsame : (webhookController.handleLeadCaptured db p now af).1.contacts =
        db.contacts := by
      simp [webhookController.handleLeadCaptured, ht]
    rw [hsame]
    exact ⟨c, hc, rfl, rfl, rfl, rfl, rfl, rfl, rfl, rfl, fun _ => rfl,
      fun _ => rfl, Or.inl rfl, Or.inl rfl⟩

/-- C4 (witness): the frame theorem applied to a fully-populated stored
contact (including `kf_visitor_id = "OLD"`) matched by email by a visitor
carrying new names and `kf_visitor_id = "NEW"`. -/
theorem dedup_backfill_frame_witness :
    ∃ c' ∈ (webhookController.handleLeadCaptured dbC4 pC4 5 false).1.contacts,
      c'.id = contactFull.id ∧ c'.tenant_id = contactFull.tenant_id ∧
      c'.kf_visitor_id = contactFull.kf_visitor_id ∧
      c'.email = contactFull.email ∧ c'.phone = contactFull.phone ∧
      c'.dob = contactFull.dob ∧ c'.company_id = contactFull.company_id ∧
      c'.source = contactFull.source ∧
      (contactFull.first_name.isSome = true → c'.first_name = contactFull.first_name) ∧
      (contactFull.last_name.isSome = true → c'.last_name = contactFull.last_name) ∧
      (c'.first_name = contactFull.first_name ∨ c'.first_name = visC4.first_name) ∧
      (c'.last_name = contactFull.last_name ∨ c'.last_name = visC4.last_name) :=
  dedup_backfill_frame dbC4 pC4 visC4 contactFull 5 false rfl rfl
    (List.pairwise_singleton _ _) (by decide) contactFull (List.mem_cons_self _ _)

theorem contactUpdate_length (db : DB) (cid t : Nat)
    (fn ln em ph dob : Option String) (co : Option Nat) (now : Nat) :
    (ContactModel.update db cid t fn ln em ph dob co now).1.contacts.length =
      db.contacts.length := by
  simp [ContactModel.update]

theorem resolveContact_tenants (db : DB) (t : Nat)
    (vis : Option webhookController.Visitor) (now : Nat) :
    (webhookController.resolveContact db t vis now).1.tenants = db.tenants := by
  unfold webhookController.resolveContact
  rcases vis with _ | v
  · rfl
  · dsimp only
    split
    · split
      · split <;> rfl
      · rfl
    · rfl

theorem handleLeadCaptured_contacts (db : DB) (p : webhookController.Payload)
    (now : Nat) (af : Bool) (ht : p.tenant_id ∈ db.tenants) :
    (webhookController.handleLeadCaptured db p now af).1.contacts =
      (webhookController.resolveContact db p.tenant_id p.visitor now).1.contacts := by
  simp only [webhookController.handleLeadCaptured]
  rw [if_pos ht]
  cases af <;> rfl

theorem handleLeadCaptured_tenants (db : DB) (p : webhookController.Payload)
    (now : Nat) (af : Bool) :
    (webhookController.handleLeadCaptured db p now af).1.tenants = db.tenants := by
  simp only [webhookController.handleLeadCaptured]
  split
  · cases af
    · show (webhookController.resolveContact db p.tenant_id p.visitor now).1.tenants =
        db.tenants
      exact resolveContact_tenants db p.tenant_id p.visitor now
    · show (webhookController.resolveContact db p.tenant_id p.visitor now).1.tenants =
        db.tenants
      exact resolveContact_tenants db p.tenant_id p.visitor now
  · rfl

theorem handleLeadCaptured_success (db : DB) (p : webhookController.Payload)
    (now : Nat) (ht : p.tenant_id ∈ db.tenants) :
    (webhookController.handleLeadCaptured db p now false).2 =
      webhookController.Outcome.success
        (LeadModel.create (webhookController.resolveContact db p.tenant_id p.visitor now).1
          p.tenant_id
          (webhookController.webhookLeadData p
            (webhookController.resolveContact db p.tenant_id p.visitor now).2) now).2.id
        (webhookController.resolveContact db p.tenant_id p.visitor now).2 := by
  simp only [webhookController.handleLeadCaptured]
  rw [if_pos ht]
  rfl

theorem resolveContact_create (db : DB) (t : Nat) (v : webhookController.Visitor)
    (now : Nat) (hkey : (v.email.isSome || v.phone.isSome) = true)
    (hno : ContactModel.findByEmailOrPhone db t v.email v.phone = none) :
    webhookController.resolveContact db t (some v) now =
      ((ContactModel.create db t (webhookController.webhookContactData v) now).1,
       some (ContactModel.create db t (webhookController.webhookContactData v) now).2.id) := by
  unfold webhookController.resolveContact
  dsimp only
  rw [if_pos hkey, hno]

theorem resolveContact_found (db : DB) (t : Nat) (v : webhookController.Visitor)
    (now : Nat) (ex : ContactRow)
    (hkey : (v.email.isSome || v.phone.isSome) = true)
    (hf : ContactModel.findByEmailOrPhone db t v.email v.phone = some ex) :
    webhookController.resolveContact db t (some v) now =
      (if (webhookController.mkUpdateData v ex).nonEmpty = true then
        ((ContactModel.update db ex.id t
            (webhookController.mkUpdateData v ex).first_name
            (webhookController.mkUpdateData v ex).last_name
            none none none none now).1, some ex.id)
      else (db, some ex.id)) := by
  unfold webhookController.resolveContact
  dsimp only
  rw [if_pos hkey, hf]

/-- C3: running the webhook ingestion twice with the same visitor email into
a tenant partition that has no matching contact creates exactly one contact
row in total: the first run creates it (with the fresh id), the second run's
email-or-phone dedup search finds it and reuses its id, so both ingestion
outcomes report the same contact id and the contacts table has grown by
exactly one row after both runs. -/
theorem contact_dedup_idempotent (db : DB) (p : webhookController.Payload)
    (v : webhookController.Visitor) (e : String) (n1 n2 : Nat)
    (hv : p.visitor = some v) (he : v.email = some e)
    (ht : p.tenant_id ∈ db.tenants)
    (hno : ContactModel.findByEmailOrPhone db p.tenant_id v.email v.phone = none)
    (r1 : DB × webhookController.Outcome)
    (hr1 : webhookController.handleLeadCaptured db p n1 false = r1)
    (r2 : DB × webhookController.Outcome)
    (hr2 : webhookController.handleLeadCaptured r1.1 p n2 false = r2) :
    r1.1.contacts.length = db.contacts.length + 1 ∧
    r2.1.contacts.length = db.contacts.length + 1 ∧
    r1.2.contactOf = some db.nextId ∧
    r2.2.contactOf = some db.nextId := by
  subst hr1
  subst hr2
  have hkey : (v.email.isSome || v.phone.isSome) = true := by
    rw [he]
    rfl
  have hres1 := resolveContact_create db p.tenant_id v n1 hkey hno
  have hc1 : (webhookController.handleLeadCaptured db p n1 false).1.contacts =
      db.contacts ++
        [(ContactModel.create db p.tenant_id (webhookController.webhookContactData v) n1).2] := by
    rw [handleLeadCaptured_contacts db p n1 false ht, hv, hres1]
    rfl
  have hlen1 : (webhookController.handleLeadCaptured db p n1 false).1.contacts.length =
      db.contacts.length + 1 := by
    rw [hc1]
    simp
  have hout1 : (webhookController.handleLeadCaptured db p n1 false).2.contactOf =
      some db.nextId := by
    rw [handleLeadCaptured_success db p n1 ht, hv, hres1]
    rfl
  have ht2 : p.tenant_id ∈ (webhookController.handleLeadCaptured db p n1 false).1.tenants := by
    rw [handleLeadCaptured_tenants]
    exact ht
  have hfind2 : ContactModel.findByEmailOrPhone
      (webhookController.handleLeadCaptured db p n1 false).1 p.tenant_id v.email v.phone =
      some (ContactModel.create db p.tenant_id (webhookController.webhookContactData v) n1).2 := by
    show ((webhookController.handleLeadCaptured db p n1 false).1.contacts.find? fun c =>
      c.tenant_id == p.tenant_id &&
        (sqlEqOpt c.email v.email || sqlEqOpt c.phone v.phone)) = _
    rw [hc1, List.find?_append]
    have hno' : (db.contacts.find? fun c =>
        c.tenant_id == p.tenant_id &&
          (sqlEqOpt c.email v.email || sqlEqOpt c.phone v.phone)) = none := hno
    rw [hno', Option.none_or]
    simp [List.find?, ContactModel.create, webhookController.webhookContactData, he, sqlEqOpt]
  have hres2 := resolveContact_found
    (webhookController.handleLeadCaptured db p n1 false).1 p.tenant_id v n2
    (ContactModel.create db p.tenant_id (webhookController.webhookContactData v) n1).2
    hkey hfind2
  have hlen2 : (webhookController.handleLeadCaptured
      (webhookController.handleLeadCaptured db p n1 false).1 p n2 false).1.contacts.length =
      (webhookController.handleLeadCaptured db p n1 false).1.contacts.length := by
    rw [handleLeadCaptured_contacts _ p n2 false ht2, hv, hres2]
    by_cases hud : (webhookController.mkUpdateData v
        (ContactModel.create db p.tenant_id (webhookController.webhookContactData v) n1).2).nonEmpty = true
    · rw [if_pos hud]
      exact contactUpdate_length _ _ _ _ _ _ _ _ _ _
    · rw [if_neg hud]
  have hout2 : (webhookController.handleLeadCaptured
      (webhookController.handleLeadCaptured db p n1 false).1 p n2 false).2.contactOf =
      some db.nextId := by
    rw [handleLeadCaptured_success _ p n2 ht2, hv, hres2]
    by_cases hud : (webhookController.mkUpdateData v
        (ContactModel.create db p.tenant_id (webhookController.webhookContactData v) n1).2).nonEmpty = true
    · rw [if_pos hud]
      rfl
    · rw [if_neg hud]
      rfl
  exact ⟨hlen1, by rw [hlen2, hlen1], hout1, hout2⟩

/-- C3 (witness): two webhook runs with the same email against an initially
contact-free tenant — contact count 1 after each run and the same contact id
(the fresh id 100) reported by both runs. -/
theorem contact_dedup_idempotent_witness :
    (webhookController.handleLeadCaptured dbC2 pC2 7 false).1.contacts.length =
      dbC2.contacts.length + 1 ∧
    (webhookController.handleLeadCaptured
      (webhookController.handleLeadCaptured dbC2 pC2 7 false).1 pC2 8 false).1.contacts.length =
      dbC2.contacts.length + 1 ∧
    (webhookController.handleLeadCaptured dbC2 pC2 7 false).2.contactOf =
      some dbC2.nextId ∧
    (webhookController.handleLeadCaptured
      (webhookController.handleLeadCaptured dbC2 pC2 7 false).1 pC2 8 false).2.contactOf =
      some dbC2.nextId :=
  contact_dedup_idempotent dbC2 pC2 visC2 ("j@x.com") 7 8 rfl rfl (by decide) rfl
    _ rfl _ rfl
